import Mathlib

/-!
Verification of the matchlock Python SDK client (`src/sdk/python/matchlock/client.py`,
`types.py`) against its natural-language specification.

The Python code is shallowly embedded: pure fragments become Lean functions;
effectful fragments (RPC frames written to the subprocess, hook invocations,
the local hook server) become functions that additionally return an explicit
trace of the effects they perform, with environment oracles standing in for
the behaviour of the external subprocess (response arrival, CLI exit codes,
socket binding).  Python `bytes` are `List Nat` (each element < 256 in
practice), Python exceptions are `Except ClientError`, Python dynamic return
values are small inductives enumerating the `isinstance` cases the code
distinguishes, and JSON wire values are the `JsonValue` inductive.
-/

/-- JSON values as written on the wire (dicts keep insertion order, mirroring
Python dicts). Numbers are rationals so fractional `cpus` values embed. -/
inductive JsonValue where
  | null
  | bool (b : Bool)
  | num (q : ℚ)
  | str (s : String)
  | arr (xs : List JsonValue)
  | obj (kvs : List (String × JsonValue))

/-- Lookup of a key in a JSON object (Python dicts have unique keys, so first
match is the value). Non-objects have no keys. -/
def lookupObj (j : JsonValue) (k : String) : Option JsonValue :=
  match j with
  | .obj kvs => kvs.lookup k
  | _ => none

/-- Errors raised by the client.  `matchlock` is `MatchlockError`, `rpc` is
`RPCError(code, message)`, `timeoutErr` is `TimeoutError`, `calledProcess` is
`subprocess.CalledProcessError` (from `check=True` runs), `osError` covers
OS-level failures (spawn/bind/broken pipe), `assertionFailed` is a Python
`assert` firing. -/
inductive ClientError where
  | matchlock (msg : String)
  | rpc (code : Int) (msg : String)
  | timeoutErr (msg : String)
  | calledProcess (exitCode : Nat)
  | osError (msg : String)
  | assertionFailed
deriving DecidableEq

/-- `true` iff an `Except` is `.ok` (i.e. the Python call returned normally). -/
def exceptOk {ε α : Type} : Except ε α → Bool
  | .ok _ => true
  | .error _ => false

/-- A single quote character, used to render Python `!r` string reprs. -/
def singleQuote : String := String.singleton (Char.ofNat 39)

/-- Model of Python `repr` for strings as used in f-string `!r` interpolations. -/
def pyRepr (s : String) : String := singleQuote ++ s ++ singleQuote

/-- Model of Python `str.strip()`: drop leading and trailing whitespace. -/
def pyStrip (s : String) : String :=
  String.mk (((s.data.dropWhile Char.isWhitespace).reverse.dropWhile Char.isWhitespace).reverse)

/-- Model of Python `str.lower()` (ASCII case folding). -/
def pyLower (s : String) : String :=
  String.mk (s.data.map Char.toLower)

/-- Model of Python `str.encode("utf-8")` for one code point. -/
def utf8EncodeChar (c : Char) : List Nat :=
  let n := c.toNat
  if n < 128 then [n]
  else if n < 2048 then [192 + n / 64, 128 + n % 64]
  else if n < 65536 then [224 + n / 4096, 128 + (n / 64) % 64, 128 + n % 64]
  else [240 + n / 262144, 128 + (n / 4096) % 64, 128 + (n / 64) % 64, 128 + n % 64]

/-- Model of Python `str.encode("utf-8")`: the UTF-8 bytes of a string. -/
def strBytes (s : String) : List Nat :=
  (s.data.map utf8EncodeChar).flatten

/-- The standard base64 alphabet. -/
def base64Alphabet : List Char :=
  "ABCDEFGHIJKLMNOPQRSTUVWXYZabcdefghijklmnopqrstuvwxyz0123456789+/".data

/-- The base64 digit for a 6-bit value. -/
def b64Char (n : Nat) : Char := base64Alphabet.getD n 'A'

/-- Model of Python `base64.b64encode(...).decode("ascii")`: standard base64
with `=` padding. -/
def base64Encode : List Nat → String
  | [] => ""
  | [a] =>
    String.mk [b64Char (a / 4), b64Char (a % 4 * 16), '=', '=']
  | [a, b] =>
    String.mk [b64Char (a / 4), b64Char (a % 4 * 16 + b / 16), b64Char (b % 16 * 4), '=']
  | a :: b :: c :: rest =>
    String.mk [b64Char (a / 4), b64Char (a % 4 * 16 + b / 16),
               b64Char (b % 16 * 4 + c / 64), b64Char (c % 64)]
      ++ base64Encode rest

/-- Scan an fnmatch class body up to its closing `]`; returns the body and the
remaining pattern, or `none` when unterminated. -/
def scanCharClass : List Char → Option (List Char × List Char)
  | [] => none
  | ']' :: r => some ([], r)
  | c :: r => (scanCharClass r).map (fun x => (c :: x.1, x.2))

/-- Parse the body of an fnmatch `[...]` character class: the characters up to
the closing `]` (a `]` directly after the opening `[`/`[!` is part of the
body).  Returns `(negated, body, remaining pattern)`, or `none` when the class
is unterminated (in which case Python treats `[` as a literal). -/
def parseCharClass (p : List Char) : Option (Bool × List Char × List Char) :=
  match p with
  | '!' :: ']' :: r => (scanCharClass r).map (fun x => (true, ']' :: x.1, x.2))
  | '!' :: q => (scanCharClass q).map (fun x => (true, x.1, x.2))
  | ']' :: r => (scanCharClass r).map (fun x => (false, ']' :: x.1, x.2))
  | _ => (scanCharClass p).map (fun x => (false, x.1, x.2))

/-- Membership of a character in an fnmatch class body; `x-y` denotes an
inclusive range, other characters match literally. -/
def charClassMatches : List Char → Char → Bool
  | [], _ => false
  | x :: '-' :: y :: rest, c =>
    (x ≤ c && c ≤ y) || charClassMatches rest c
  | x :: rest, c => x = c || charClassMatches rest c

/-- Fuel-driven core of the fnmatch glob matcher (`*` matches any run of
characters including `/`, `?` one character, `[...]` a class). The fuel is
always sufficient for the initial call in `fnmatch`. -/
def globMatchFuel : Nat → List Char → List Char → Bool
  | 0, _, _ => false
  | _ + 1, [], s => s.isEmpty
  | fuel + 1, '*' :: p, s =>
    globMatchFuel fuel p s ||
      (match s with
       | [] => false
       | _ :: s2 => globMatchFuel fuel ('*' :: p) s2)
  | fuel + 1, '?' :: p, s =>
    (match s with
     | [] => false
     | _ :: s2 => globMatchFuel fuel p s2)
  | fuel + 1, '[' :: p, s =>
    (match parseCharClass p with
     | none =>
       (match s with
        | '[' :: s2 => globMatchFuel fuel p s2
        | _ => false)
     | some (neg, body, rest) =>
       (match s with
        | [] => false
        | c :: s2 =>
          (if neg then !charClassMatches body c else charClassMatches body c) &&
            globMatchFuel fuel rest s2))
  | fuel + 1, c :: p, s =>
    (match s with
     | c2 :: s2 => c = c2 && globMatchFuel fuel p s2
     | [] => false)

/-- Model of Python `fnmatch.fnmatch(name, pattern)` on POSIX (where
`os.path.normcase` is the identity): a whole-string shell-glob match. -/
def fnmatch (name pattern : String) : Bool :=
  globMatchFuel (pattern.length + name.length + 1) pattern.data name.data

/-! ## VFS hook data model (`types.py`, local hook classes in `client.py`) -/

/-- `types.VFSMutateRequest`: input to SDK-local mutate hooks. -/
structure VFSMutateRequest where
  path : String
  size : Nat
  mode : Nat
  uid : Nat
  gid : Nat

/-- `types.VFSActionRequest`: input to SDK-local action hooks. -/
structure VFSActionRequest where
  op : String
  path : String
  size : Nat
  mode : Nat
  uid : Nat
  gid : Nat

/-- `types.VFSHookEvent`: metadata delivered to SDK-local after hooks. -/
structure VFSHookEvent where
  op : String
  path : String
  size : Nat
  mode : Nat
  uid : Nat
  gid : Nat

/-- The dynamic value a Python mutate hook returns: the code distinguishes
`None`, `str`, `bytes` and everything else (`isinstance` checks in
`_apply_local_write_mutations`). -/
inductive MutateReturn where
  | nothing
  | str (s : String)
  | bytes (b : List Nat)
  | other

/-- `client._LocalVFSMutateHook`.  Python stores `ops` as a `set`; a list with
the same membership models it (only emptiness and membership are used). -/
structure LocalVFSMutateHook where
  name : String
  ops : List String
  path : String
  hook : VFSMutateRequest → MutateReturn

/-- `client._LocalVFSActionHook`.  The hook result is passed through Python
`str(...)`; the model has the hook return that string directly. -/
structure LocalVFSActionHook where
  name : String
  ops : List String
  path : String
  hook : VFSActionRequest → String

/-- `client._LocalVFSHook` (safe or dangerous after-hook). The callback result
is ignored by the dispatcher, so the hook maps to `Unit`; the `dangerous`
variant also receives the client handle in Python, which carries no
information for these claims. -/
structure LocalVFSHook where
  name : String
  ops : List String
  path : String
  timeout_ms : Int
  dangerous : Bool
  hook : VFSHookEvent → Unit

/-- The per-`write_file` VFS hook state of the client
(`_vfs_mutate_hooks` / `_vfs_action_hooks` lists). -/
structure ClientVFSState where
  vfs_mutate_hooks : List LocalVFSMutateHook
  vfs_action_hooks : List LocalVFSActionHook

/-- Observable events of one `write_file` call: each local hook invocation and
the final `write_file` RPC frame handed to the transport. -/
inductive WriteEvent where
  | actionHookCall (name : String)
  | mutateHookCall (name : String)
  | rpcWriteFile (path : String) (contentB64 : String) (mode : Nat)
deriving DecidableEq

/-- The two `continue` guards of the mutate loop in
`_apply_local_write_mutations`, negated: a hook runs iff its op filter is
empty or contains `write`, and its path filter is empty or fnmatch-matches. -/
def mutateHookMatches (path : String) (h : LocalVFSMutateHook) : Bool :=
  (h.ops.isEmpty || h.ops.contains "write") && (h.path == "" || fnmatch path h.path)

/-- The two `continue` guards of the loop in `_apply_local_action_hooks`,
negated. -/
def actionHookMatches (op path : String) (h : LocalVFSActionHook) : Bool :=
  (h.ops.isEmpty || h.ops.contains op) && (h.path == "" || fnmatch path h.path)

/-- The `MatchlockError` message for an invalid mutate-hook return type
(f-string at the end of `_apply_local_write_mutations`). -/
def invalidMutateReturnMsg (name : String) : String :=
  "invalid mutate_hook return type for " ++ pyRepr name ++ ": expected bytes|str|None"

/-- The `MatchlockError` message for a blocking action hook. -/
def actionBlockedMsg (op path name : String) : String :=
  "vfs action hook blocked operation: op=" ++ op ++ " path=" ++ path ++
    " hook=" ++ pyRepr name

/-- The `MatchlockError` message for an invalid action-hook return value. -/
def actionInvalidMsg (name decision : String) : String :=
  "invalid action_hook return value for " ++ pyRepr name ++
    ": expected " ++ pyRepr "allow" ++ "|" ++ pyRepr "block" ++ ", got " ++ pyRepr decision

/-- `Client._apply_local_write_mutations`, with an explicit trace of the hooks
invoked.  The loop threads `current` through the matching hooks in order:
`None` keeps the bytes, `str` is UTF-8-encoded, `bytes` replaces them, and any
other value raises `MatchlockError`.  The request passed to each hook carries
the size of the current (possibly already mutated) bytes. -/
def applyLocalWriteMutationsT (uid gid : Nat) (path : String) (mode : Nat)
    (current : List Nat) :
    List LocalVFSMutateHook → List WriteEvent × Except ClientError (List Nat)
  | [] => ([], .ok current)
  | h :: rest =>
    if mutateHookMatches path h then
      match h.hook { path := path, size := current.length, mode := mode, uid := uid, gid := gid } with
      | .nothing =>
        (WriteEvent.mutateHookCall h.name :: (applyLocalWriteMutationsT uid gid path mode current rest).1,
         (applyLocalWriteMutationsT uid gid path mode current rest).2)
      | .str s =>
        (WriteEvent.mutateHookCall h.name :: (applyLocalWriteMutationsT uid gid path mode (strBytes s) rest).1,
         (applyLocalWriteMutationsT uid gid path mode (strBytes s) rest).2)
      | .bytes b =>
        (WriteEvent.mutateHookCall h.name :: (applyLocalWriteMutationsT uid gid path mode b rest).1,
         (applyLocalWriteMutationsT uid gid path mode b rest).2)
      | .other =>
        ([WriteEvent.mutateHookCall h.name],
         .error (.matchlock (invalidMutateReturnMsg h.name)))
    else applyLocalWriteMutationsT uid gid path mode current rest

/-- The body of one iteration of the `_apply_local_action_hooks` loop after
the hook has been invoked: an empty or `allow` decision continues with the
remaining hooks, `block` raises the blocked error, anything else raises the
invalid-value error. -/
def actionDecisionStep (decision op path name : String)
    (rest : List WriteEvent × Except ClientError Unit) :
    List WriteEvent × Except ClientError Unit :=
  if decision == "" || decision == "allow" then
    (WriteEvent.actionHookCall name :: rest.1, rest.2)
  else if decision == "block" then
    ([WriteEvent.actionHookCall name], .error (.matchlock (actionBlockedMsg op path name)))
  else
    ([WriteEvent.actionHookCall name], .error (.matchlock (actionInvalidMsg name decision)))

/-- `Client._apply_local_action_hooks`, with an explicit trace.  The request
is built once; each matching hook is invoked, its result stripped and
lower-cased, and an empty or `allow` decision continues, `block` or anything
else raises. -/
def applyLocalActionHooksT (uid gid : Nat) (op path : String) (size mode : Nat) :
    List LocalVFSActionHook → List WriteEvent × Except ClientError Unit
  | [] => ([], .ok ())
  | h :: rest =>
    if actionHookMatches op path h then
      actionDecisionStep
        (pyLower (pyStrip (h.hook { op := op, path := path, size := size, mode := mode, uid := uid, gid := gid })))
        op path h.name (applyLocalActionHooksT uid gid op path size mode rest)
    else applyLocalActionHooksT uid gid op path size mode rest

/-- A `write_file` content argument: Python accepts `bytes | str`. -/
inductive WriteContent where
  | str (s : String)
  | bytes (b : List Nat)

/-- The `isinstance(content, str)` normalisation at the top of `write_file`. -/
def contentBytes : WriteContent → List Nat
  | .str s => strBytes s
  | .bytes b => b

/-- `Client.write_file`: normalises content to bytes, evaluates local action
hooks with op `write`, applies local write mutations, then hands the
`write_file` RPC frame (path, base64 content, mode) to the transport.  The
trace records hook invocations and the RPC frame; an error anywhere aborts
before the RPC event. -/
def writeFileT (st : ClientVFSState) (uid gid : Nat) (path : String)
    (content : WriteContent) (mode : Nat) :
    List WriteEvent × Except ClientError Unit :=
  let bytes := contentBytes content
  let ra := applyLocalActionHooksT uid gid "write" path bytes.length mode st.vfs_action_hooks
  match ra.2 with
  | .error e => (ra.1, .error e)
  | .ok _ =>
    let rm := applyLocalWriteMutationsT uid gid path mode bytes st.vfs_mutate_hooks
    match rm.2 with
    | .error e => (ra.1 ++ rm.1, .error e)
    | .ok final =>
      (ra.1 ++ rm.1 ++ [WriteEvent.rpcWriteFile path (base64Encode final) mode], .ok ())

/-- Specification-side fold step: the content transformation a single matching
mutate hook performs (`other` never occurs on a successful run). -/
def mutateStepFn (uid gid : Nat) (path : String) (mode : Nat)
    (cur : List Nat) (h : LocalVFSMutateHook) : List Nat :=
  match h.hook { path := path, size := cur.length, mode := mode, uid := uid, gid := gid } with
  | .nothing => cur
  | .str s => strBytes s
  | .bytes b => b
  | .other => cur

/-- `true` iff a `write_file` trace contains an RPC frame event. -/
def traceHasRpc (tr : List WriteEvent) : Bool :=
  tr.any (fun e => match e with
    | .rpcWriteFile _ _ _ => true
    | _ => false)

/-- A concrete allow-everything action hook, used to evaluate the pipeline. -/
def wAction1 : LocalVFSActionHook :=
  { name := "a1", ops := [], path := "", hook := fun _ => "allow" }

/-- A concrete mutate hook returning the string `xy`. -/
def wMutate1 : LocalVFSMutateHook :=
  { name := "m1", ops := [], path := "", hook := fun _ => .str "xy" }

/-- A concrete mutate hook returning `None`. -/
def wMutate2 : LocalVFSMutateHook :=
  { name := "m2", ops := [], path := "", hook := fun _ => .nothing }

/-- Concrete hook state: one action hook, two mutate hooks. -/
def wState1 : ClientVFSState :=
  { vfs_mutate_hooks := [wMutate1, wMutate2], vfs_action_hooks := [wAction1] }

/-- A concrete mutate hook returning a value that is neither bytes, str nor
None. -/
def wMutateBad : LocalVFSMutateHook :=
  { name := "bad", ops := [], path := "", hook := fun _ => .other }

/-- Concrete hook state containing only the invalid-return mutate hook. -/
def wStateBad : ClientVFSState :=
  { vfs_mutate_hooks := [wMutateBad], vfs_action_hooks := [] }

/-! ## VFS hook rule compilation (`Client._compile_vfs_hooks`) -/

/-- `types.VFSHookRule`.  `phase` and `action` are plain strings, as at
runtime (Python does not enforce the declared `Literal` aliases and the
compiler itself compares against the out-of-alias value `mutate_write`).
Callback fields mirror the four optional Python callables. -/
structure VFSHookRule where
  name : String := ""
  phase : String := ""
  ops : List String := []
  path : String := ""
  action : String := "allow"
  timeout_ms : Int := 0
  hook : Option (VFSHookEvent → Unit) := none
  dangerous_hook : Option (VFSHookEvent → Unit) := none
  mutate_hook : Option (VFSMutateRequest → MutateReturn) := none
  action_hook : Option (VFSActionRequest → String) := none

/-- `types.VFSInterceptionConfig`. -/
structure VFSInterceptionConfig where
  emit_events : Bool := false
  rules : List VFSHookRule := []

/-- `(rule.action or "").strip().lower()` as used throughout the compiler. -/
def normAction (a : String) : String := pyLower (pyStrip a)

/-- `sum(1 for cb in callbacks if cb is not None)`. -/
def ruleCallbackCount (r : VFSHookRule) : Nat :=
  (if r.hook.isSome then 1 else 0) + (if r.dangerous_hook.isSome then 1 else 0) +
    (if r.mutate_hook.isSome then 1 else 0) + (if r.action_hook.isSome then 1 else 0)

/-- The all-four-callbacks-are-None test selecting the pure-declarative
branch. -/
def ruleHasNoCallback (r : VFSHookRule) : Bool :=
  r.hook.isNone && r.dangerous_hook.isNone && r.mutate_hook.isNone && r.action_hook.isNone

/-- `{op.lower() for op in rule.ops if op}` (a set in Python; membership and
emptiness are all that is ever used of it). -/
def ruleOpsNormalized (r : VFSHookRule) : List String :=
  (r.ops.filter (fun o => o != "")).map pyLower

/-- The outcome of compiling one VFS rule: either a verbatim wire rule or one
of the three local hook kinds. -/
inductive CompiledRule where
  | wire (r : VFSHookRule)
  | localAfter (h : LocalVFSHook)
  | localMutate (h : LocalVFSMutateHook)
  | localAction (h : LocalVFSActionHook)

/-- The per-rule body of the `_compile_vfs_hooks` loop: validation and routing
of a single rule, in source order (callback count, declarative branch, `hook`,
`dangerous_hook`, `action_hook`, else `mutate_hook`). -/
def compileVFSRule (r : VFSHookRule) : Except ClientError CompiledRule :=
  if ruleCallbackCount r > 1 then
    .error (.matchlock ("invalid vfs hook " ++ pyRepr r.name ++ ": cannot set more than one callback hook"))
  else if ruleHasNoCallback r then
    if normAction r.action = "mutate_write" then
      .error (.matchlock ("invalid vfs hook " ++ pyRepr r.name ++ ": mutate_write requires mutate_hook callback"))
    else .ok (.wire r)
  else
    match r.hook with
    | some hk =>
      if normAction r.action ≠ "" ∧ normAction r.action ≠ "allow" then
        .error (.matchlock ("invalid vfs hook " ++ pyRepr r.name ++ ": callback hooks cannot set action=" ++ pyRepr r.action))
      else if pyLower r.phase ≠ "after" then
        .error (.matchlock ("invalid vfs hook " ++ pyRepr r.name ++ ": callback hooks must use phase=after"))
      else .ok (.localAfter { name := r.name, ops := ruleOpsNormalized r, path := r.path,
                              timeout_ms := r.timeout_ms, dangerous := false, hook := hk })
    | none =>
      match r.dangerous_hook with
      | some hk =>
        if normAction r.action ≠ "" ∧ normAction r.action ≠ "allow" then
          .error (.matchlock ("invalid vfs hook " ++ pyRepr r.name ++ ": dangerous_hook cannot set action=" ++ pyRepr r.action))
        else if pyLower r.phase ≠ "after" then
          .error (.matchlock ("invalid vfs hook " ++ pyRepr r.name ++ ": dangerous_hook must use phase=after"))
        else .ok (.localAfter { name := r.name, ops := ruleOpsNormalized r, path := r.path,
                                timeout_ms := r.timeout_ms, dangerous := true, hook := hk })
      | none =>
        match r.action_hook with
        | some hk =>
          if normAction r.action ≠ "" ∧ normAction r.action ≠ "allow" then
            .error (.matchlock ("invalid vfs hook " ++ pyRepr r.name ++ ": action_hook cannot set action=" ++ pyRepr r.action))
          else if r.phase ≠ "" ∧ pyLower r.phase ≠ "before" then
            .error (.matchlock ("invalid vfs hook " ++ pyRepr r.name ++ ": action_hook must use phase=before"))
          else .ok (.localAction { name := r.name, ops := ruleOpsNormalized r, path := r.path, hook := hk })
        | none =>
          match r.mutate_hook with
          | some hk =>
            if normAction r.action ≠ "" ∧ normAction r.action ≠ "allow" then
              .error (.matchlock ("invalid vfs hook " ++ pyRepr r.name ++ ": mutate_hook cannot set action=" ++ pyRepr r.action))
            else if r.phase ≠ "" ∧ pyLower r.phase ≠ "before" then
              .error (.matchlock ("invalid vfs hook " ++ pyRepr r.name ++ ": mutate_hook must use phase=before"))
            else .ok (.localMutate { name := r.name, ops := ruleOpsNormalized r, path := r.path, hook := hk })
          | none => .error .assertionFailed

/-- The `_compile_vfs_hooks` loop over all rules; the first invalid rule
raises. -/
def compileVFSRules : List VFSHookRule → Except ClientError (List CompiledRule)
  | [] => .ok []
  | r :: rest =>
    match compileVFSRule r with
    | .error e => .error e
    | .ok c =>
      match compileVFSRules rest with
      | .error e => .error e
      | .ok cs => .ok (c :: cs)

/-- Distribute the compiled rules over the four output lists, preserving
order (the Python loop appends to each list as it goes). -/
def splitCompiled : List CompiledRule →
    List VFSHookRule × List LocalVFSHook × List LocalVFSMutateHook × List LocalVFSActionHook
  | [] => ([], [], [], [])
  | c :: cs =>
    match c with
    | .wire r => (r :: (splitCompiled cs).1, (splitCompiled cs).2.1,
                  (splitCompiled cs).2.2.1, (splitCompiled cs).2.2.2)
    | .localAfter h => ((splitCompiled cs).1, h :: (splitCompiled cs).2.1,
                        (splitCompiled cs).2.2.1, (splitCompiled cs).2.2.2)
    | .localMutate h => ((splitCompiled cs).1, (splitCompiled cs).2.1,
                         h :: (splitCompiled cs).2.2.1, (splitCompiled cs).2.2.2)
    | .localAction h => ((splitCompiled cs).1, (splitCompiled cs).2.1,
                         (splitCompiled cs).2.2.1, h :: (splitCompiled cs).2.2.2)

/-- `Client._compile_vfs_hooks`: compile every rule, set `emit_events` when
any safe/dangerous after-hook was produced, and drop the wire config entirely
when it has no rules and no events. -/
def compileVFSHooks : Option VFSInterceptionConfig →
    Except ClientError (Option VFSInterceptionConfig × List LocalVFSHook ×
      List LocalVFSMutateHook × List LocalVFSActionHook)
  | none => .ok (none, [], [], [])
  | some cfg =>
    match compileVFSRules cfg.rules with
    | .error e => .error e
    | .ok cs =>
      .ok (if (splitCompiled cs).1.isEmpty && !(cfg.emit_events || !(splitCompiled cs).2.1.isEmpty)
           then none
           else some { emit_events := cfg.emit_events || !(splitCompiled cs).2.1.isEmpty,
                       rules := (splitCompiled cs).1 },
           (splitCompiled cs).2.1, (splitCompiled cs).2.2.1, (splitCompiled cs).2.2.2)

/-- The amended C2 rejection conditions on a single rule: more than one
callback; a safe/dangerous hook whose normalised action is neither empty nor
`allow` or whose lower-cased phase is not `after`; a mutate/action hook whose
phase is non-empty and, lower-cased, not `before`; a callback-less rule whose
normalised action is `mutate_write`. -/
def badVFSRule (r : VFSHookRule) : Prop :=
  ruleCallbackCount r > 1 ∨
  ((r.hook.isSome ∨ r.dangerous_hook.isSome) ∧
    ((normAction r.action ≠ "" ∧ normAction r.action ≠ "allow") ∨ pyLower r.phase ≠ "after")) ∨
  ((r.mutate_hook.isSome ∨ r.action_hook.isSome) ∧
    (r.phase ≠ "" ∧ pyLower r.phase ≠ "before")) ∨
  (ruleHasNoCallback r = true ∧ normAction r.action = "mutate_write")

/-- The wire rule carried by a compiled rule, if any. -/
def wireOf : CompiledRule → Option VFSHookRule
  | .wire r => some r
  | _ => none

/-- A concrete mutate hook rule with empty phase (accepted by the compiler). -/
def cexC2Rule : VFSHookRule := { mutate_hook := some (fun _ => .nothing) }

/-- A concrete pure-declarative rule. -/
def wDeclRule : VFSHookRule := {}

/-- A concrete mutate-hook rule used for compilation evaluation. -/
def wMutRule : VFSHookRule := { name := "m", mutate_hook := some (fun _ => .nothing) }

/-- A concrete rule with two callbacks set (rejected by the compiler). -/
def cexTwoCallbacksRule : VFSHookRule :=
  { hook := some (fun _ => ()), mutate_hook := some (fun _ => .nothing) }

/-! ## Network hook data model and compilation
(`types.py`, `Client._compile_network_hooks`) -/

/-- `types.NetworkBodyTransform`. -/
structure NetworkBodyTransform where
  find : String
  replace : String := ""

/-- `NetworkBodyTransform.to_dict`. -/
def networkBodyTransformToJson (t : NetworkBodyTransform) : JsonValue :=
  .obj ([("find", .str t.find)] ++ (if t.replace ≠ "" then [("replace", .str t.replace)] else []))

/-- `types.NetworkHookRequest`: input delivered to an SDK-local network
callback hook.  Maps model Python dicts (unique keys). -/
structure NetworkHookRequest where
  phase : String := ""
  host : String := ""
  method : String := ""
  path : String := ""
  query : Option (List (String × String)) := none
  request_headers : Option (List (String × List String)) := none
  status_code : Int := 0
  response_headers : Option (List (String × List String)) := none
  is_sse : Bool := false

/-- `types.NetworkHookRequestMutation`. -/
structure NetworkHookRequestMutation where
  headers : Option (List (String × List String)) := none
  query : Option (List (String × String)) := none
  path : String := ""

/-- The dynamic value of `NetworkHookResponseMutation.set_body`: the code
distinguishes `None`, `str`, `bytes` and everything else. -/
inductive SetBodyValue where
  | nothing
  | str (s : String)
  | bytes (b : List Nat)
  | other

/-- `types.NetworkHookResponseMutation`. -/
structure NetworkHookResponseMutation where
  headers : Option (List (String × List String)) := none
  body_replacements : List NetworkBodyTransform := []
  set_body : SetBodyValue := .nothing

/-- `types.NetworkHookResult`. -/
structure NetworkHookResult where
  action : String := "allow"
  request : Option NetworkHookRequestMutation := none
  response : Option NetworkHookResponseMutation := none

/-- Outcome of invoking a Python network hook callable: it returns a
`NetworkHookResult`, returns `None`, returns a value of the wrong type, or
raises an exception with the given message. -/
inductive NetHookReturn where
  | result (r : Option NetworkHookResult)
  | invalid
  | raises (msg : String)

/-- `types.NetworkHookRule`. -/
structure NetworkHookRule where
  name : String := ""
  phase : String := ""
  hosts : List String := []
  methods : List String := []
  path : String := ""
  action : String := "allow"
  set_headers : List (String × String) := []
  delete_headers : List String := []
  set_query : List (String × String) := []
  delete_query : List String := []
  rewrite_path : String := ""
  set_response_headers : List (String × String) := []
  delete_response_headers : List String := []
  body_replacements : List NetworkBodyTransform := []
  timeout_ms : Int := 0
  hook : Option (NetworkHookRequest → NetHookReturn) := none

/-- `types.NetworkInterceptionConfig`. -/
structure NetworkInterceptionConfig where
  rules : List NetworkHookRule := []

/-- The wire form of one network rule: the dict produced by
`NetworkHookRule.to_dict`, with each conditionally-inserted key modelled as an
`Option` field, plus the `callback_id` key the compiler may add. -/
structure WireNetworkRule where
  action : String
  name : Option String := none
  phase : Option String := none
  hosts : Option (List String) := none
  methods : Option (List String) := none
  path : Option String := none
  set_headers : Option (List (String × String)) := none
  delete_headers : Option (List String) := none
  set_query : Option (List (String × String)) := none
  delete_query : Option (List String) := none
  rewrite_path : Option String := none
  set_response_headers : Option (List (String × String)) := none
  delete_response_headers : Option (List String) := none
  body_replacements : Option (List NetworkBodyTransform) := none
  timeout_ms : Option Int := none
  callback_id : Option String := none

/-- `NetworkHookRule.to_dict`: `action` always, every other key only when its
value is truthy (`timeout_ms` only when positive). -/
def networkRuleToWire (r : NetworkHookRule) : WireNetworkRule :=
  { action := r.action,
    name := if r.name ≠ "" then some r.name else none,
    phase := if r.phase ≠ "" then some r.phase else none,
    hosts := if r.hosts.isEmpty then none else some r.hosts,
    methods := if r.methods.isEmpty then none else some r.methods,
    path := if r.path ≠ "" then some r.path else none,
    set_headers := if r.set_headers.isEmpty then none else some r.set_headers,
    delete_headers := if r.delete_headers.isEmpty then none else some r.delete_headers,
    set_query := if r.set_query.isEmpty then none else some r.set_query,
    delete_query := if r.delete_query.isEmpty then none else some r.delete_query,
    rewrite_path := if r.rewrite_path ≠ "" then some r.rewrite_path else none,
    set_response_headers := if r.set_response_headers.isEmpty then none else some r.set_response_headers,
    delete_response_headers := if r.delete_response_headers.isEmpty then none else some r.delete_response_headers,
    body_replacements := if r.body_replacements.isEmpty then none else some r.body_replacements,
    timeout_ms := if r.timeout_ms > 0 then some r.timeout_ms else none,
    callback_id := none }

/-- `client._LocalNetworkHook`. -/
structure LocalNetworkHook where
  name : String
  phase : String
  timeout_ms : Int
  hook : NetworkHookRequest → NetHookReturn

/-- The compiler's callback-id scheme: `f"network_hook_{i + 1}"` where `i` is
the rule's zero-based index in the full rule list. -/
def mkNetworkCallbackId (i : Nat) : String := "network_hook_" ++ toString (i + 1)

/-- The wire network interception config (`{"rules": ...}` plus the
`callback_socket` key `create` may add). -/
structure WireNetworkConfig where
  rules : List WireNetworkRule := []
  callback_socket : Option String := none

/-- The `_compile_network_hooks` loop, carrying the `enumerate` index.  The
registry is an association list in Python dict insertion order. -/
def compileNetworkRules (i : Nat) : List NetworkHookRule →
    Except ClientError (List WireNetworkRule × List (String × LocalNetworkHook))
  | [] => .ok ([], [])
  | r :: rest =>
    match r.hook with
    | none =>
      match compileNetworkRules (i + 1) rest with
      | .error e => .error e
      | .ok (ws, reg) => .ok (networkRuleToWire r :: ws, reg)
    | some hk =>
      if normAction r.action ≠ "" ∧ normAction r.action ≠ "allow" then
        .error (.matchlock ("invalid network hook " ++ pyRepr r.name ++
          ": callback hooks cannot set action=" ++ pyRepr r.action))
      else
        match compileNetworkRules (i + 1) rest with
        | .error e => .error e
        | .ok (ws, reg) =>
          .ok ({ networkRuleToWire r with callback_id := some (mkNetworkCallbackId i) } :: ws,
               (mkNetworkCallbackId i,
                { name := r.name, phase := pyLower (pyStrip r.phase),
                  timeout_ms := if r.timeout_ms > 0 then r.timeout_ms else 0,
                  hook := hk }) :: reg)

/-- `Client._compile_network_hooks`. -/
def compileNetworkHooks : Option NetworkInterceptionConfig →
    Except ClientError (Option WireNetworkConfig × List (String × LocalNetworkHook))
  | none => .ok (none, [])
  | some cfg =>
    match compileNetworkRules 0 cfg.rules with
    | .error e => .error e
    | .ok (ws, reg) =>
      if ws.isEmpty then .ok (none, reg)
      else .ok (some { rules := ws, callback_socket := none }, reg)

/-- The registry keys of a network compilation result (empty on error). -/
def networkRegistryKeys
    (x : Except ClientError (Option WireNetworkConfig × List (String × LocalNetworkHook))) :
    List String :=
  match x with
  | .ok (_, reg) => reg.map (fun kv => kv.1)
  | .error _ => []

/-- A concrete callback-less network rule. -/
def cexNetRule0 : NetworkHookRule := { name := "r0" }

/-- A concrete callback-bearing network rule. -/
def cexNetRule1 : NetworkHookRule := { name := "r1", hook := some (fun _ => .result none) }

/-- A concrete network hook callable. -/
def wNetHookFun : NetworkHookRequest → NetHookReturn := fun _ => .result none

/-- A concrete callback-bearing network rule for the witness. -/
def wNetRule : NetworkHookRule := { name := "n1", hook := some wNetHookFun }

/-! ## Network callback server (`Client._serve_network_hook_conn`) -/

/-- One parsed request line received by the network-hook callback server,
assuming the manager sends the protocol field types (JSON strings for
`callback_id`/`phase`/..., objects for maps).  The handler applies the
`str(...).strip()` and phase normalisations itself, exactly as the source
does on the extracted values. -/
structure NetworkHookWirePayload where
  callback_id : String := ""
  phase : String := ""
  host : String := ""
  method : String := ""
  path : String := ""
  query : Option (List (String × String)) := none
  request_headers : Option (List (String × List String)) := none
  status_code : Int := 0
  response_headers : Option (List (String × List String)) := none
  is_sse : Bool := false

/-- The phase normalisation of `_serve_network_hook_conn`: strip, lower, and
collapse anything other than `before`/`after` to the empty phase. -/
def parseNetworkPhase (raw : String) : String :=
  if pyLower (pyStrip raw) = "before" then "before"
  else if pyLower (pyStrip raw) = "after" then "after"
  else ""

/-- A Python `dict[str, str]` as JSON. -/
def stringMapToJson (m : List (String × String)) : JsonValue :=
  .obj (m.map (fun kv => (kv.1, .str kv.2)))

/-- A Python `dict[str, list[str]]` as JSON. -/
def stringSliceMapToJson (m : List (String × List String)) : JsonValue :=
  .obj (m.map (fun kv => (kv.1, .arr (kv.2.map JsonValue.str))))

/-- `Client._network_hook_result_to_wire`: map a hook result to the JSON
reply; a `set_body` of the wrong type raises (surfaced as `Except.error` with
the exception message). -/
def networkHookResultToWire : Option NetworkHookResult → Except String JsonValue
  | none => .ok (.obj [])
  | some r =>
    let actionPart : List (String × JsonValue) :=
      if pyStrip r.action ≠ "" then [("action", .str (pyStrip r.action))] else []
    let requestPart : List (String × JsonValue) :=
      match r.request with
      | none => []
      | some rm =>
        let req : List (String × JsonValue) :=
          (match rm.headers with
           | some hs => [("headers", stringSliceMapToJson hs)]
           | none => []) ++
          (match rm.query with
           | some q => [("query", stringMapToJson q)]
           | none => []) ++
          (if rm.path ≠ "" then [("path", .str rm.path)] else [])
        if req.isEmpty then [] else [("request", JsonValue.obj req)]
    match r.response with
    | none => .ok (.obj (actionPart ++ requestPart))
    | some resp =>
      let respHeaders : List (String × JsonValue) :=
        match resp.headers with
        | some hs => [("headers", stringSliceMapToJson hs)]
        | none => []
      let respBody : List (String × JsonValue) :=
        if resp.body_replacements.isEmpty then []
        else [("body_replacements", JsonValue.arr (resp.body_replacements.map networkBodyTransformToJson))]
      match resp.set_body with
      | .other => .error "invalid network hook response set_body type: expected bytes|str|None"
      | sb =>
        let respSet : List (String × JsonValue) :=
          match sb with
          | .str s => [("set_body_base64", .str (base64Encode (strBytes s)))]
          | .bytes b => [("set_body_base64", .str (base64Encode b))]
          | _ => []
        let respPart := respHeaders ++ respBody ++ respSet
        .ok (.obj (actionPart ++ requestPart ++
          (if respPart.isEmpty then [] else [("response", JsonValue.obj respPart)])))

/-- `Client._serve_network_hook_conn` on a successfully read and parsed
payload: look up the callback id, check the expected phase, invoke the hook,
serialise the reply.  Returns the JSON reply written to the connection and
whether the registered user hook was invoked. -/
def serveNetworkHookConn (reg : List (String × LocalNetworkHook))
    (p : NetworkHookWirePayload) : JsonValue × Bool :=
  match reg.lookup (pyStrip p.callback_id) with
  | none => (.obj [("error", .str "network hook callback not found")], false)
  | some hk =>
    if hk.phase ≠ "" ∧ hk.phase ≠ parseNetworkPhase p.phase then
      (.obj [("error", .str "network hook phase mismatch")], false)
    else
      match hk.hook { phase := parseNetworkPhase p.phase, host := p.host, method := p.method,
                      path := p.path, query := p.query, request_headers := p.request_headers,
                      status_code := p.status_code, response_headers := p.response_headers,
                      is_sse := p.is_sse } with
      | .raises m => (.obj [("error", .str m)], true)
      | .invalid =>
        (.obj [("error", .str "invalid network hook result: expected NetworkHookResult or None")],
         true)
      | .result r =>
        match networkHookResultToWire r with
        | .error m => (.obj [("error", .str m)], true)
        | .ok j => (j, true)

/-- Concrete registry for the callback-server witness. -/
def wNetReg : List (String × LocalNetworkHook) :=
  [("network_hook_1", { name := "x", phase := "before", timeout_ms := 0, hook := wNetHookFun })]

/-- Concrete payload with a mismatched phase. -/
def wNetPayload : NetworkHookWirePayload := { callback_id := "network_hook_1", phase := "after" }

/-! ## RPC transport (`Client._send_request`, `Client._send_cancel`) -/

/-- One JSON-RPC frame handed to the subprocess stdin (the constant
`jsonrpc: "2.0"` field is elided; `params` is absent when falsy). -/
structure Frame where
  method : String
  params : Option JsonValue
  id : Nat

/-- The multiplexer state relevant to a single call: the id counter and the
ids present in the pending table. -/
structure RpcState where
  request_id : Nat
  pending : List Nat

/-- How the wait on a pending request resolves, as observed by
`_send_request`: the reader delivered a result, delivered a JSON-RPC error
object, or `event.wait` timed out. -/
inductive RpcOutcome where
  | completedOk (v : JsonValue)
  | completedErr (code : Int) (msg : String)
  | timedOut

/-- The `TimeoutError` message f-string of `_send_request`. -/
def timeoutMsg (method : String) (reqId : Nat) (timeout : ℚ) : String :=
  "request " ++ method ++ " (id=" ++ toString reqId ++ ") timed out after " ++
    toString timeout ++ "s"

/-- `Client._send_request` with `_send_cancel` inlined on the timeout path.
`processRunning` models the `poll()` guard (raising before any frame is
written when false); `outcome` is the oracle for the reader thread.  Returns
the new state, the frames written to stdin, and the call result.  The
`finally` block pops the pending entry on every path (`filter`), and the
timeout path allocates a second id for the cancel frame whose params are
`{"id": <timed-out id>}`. -/
def sendRequest (st : RpcState) (processRunning : Bool) (method : String)
    (params : Option JsonValue) (timeout : Option ℚ) (outcome : RpcOutcome) :
    RpcState × List Frame × Except ClientError JsonValue :=
  if processRunning then
    let reqId := st.request_id + 1
    let reqFrame : Frame := { method := method, params := params, id := reqId }
    match outcome with
    | .timedOut =>
      let cancelId := reqId + 1
      let cancelFrame : Frame :=
        { method := "cancel", params := some (.obj [("id", .num reqId)]), id := cancelId }
      ({ request_id := cancelId,
         pending := (st.pending ++ [reqId]).filter (fun x => x != reqId) },
       [reqFrame, cancelFrame],
       .error (.timeoutErr (timeoutMsg method reqId (timeout.getD 0))))
    | .completedOk v =>
      ({ request_id := reqId,
         pending := (st.pending ++ [reqId]).filter (fun x => x != reqId) },
       [reqFrame], .ok v)
    | .completedErr code msg =>
      ({ request_id := reqId,
         pending := (st.pending ++ [reqId]).filter (fun x => x != reqId) },
       [reqFrame], .error (.rpc code msg))
  else (st, [], .error (.matchlock "Matchlock process not running"))

/-! ## close and remove (`Client.close`, `Client.remove`) -/

/-- The client state fields `close`/`remove` read or write. -/
structure CloseState where
  closed : Bool := false
  vm_id : Option String := none
  last_vm_id : Option String := none
  processSome : Bool := true

/-- Environment oracle for `close`: whether `poll()` reports the subprocess
already exited, and the outcomes of the close RPC, the stdin close, the
graceful wait and the kill — each of which `close` wraps in
`try/except: pass`. -/
structure CloseEnv where
  pollExited : Bool := false
  closeRpcOutcome : RpcOutcome := .completedOk (.obj [])
  stdinCloseOk : Bool := true
  waitOk : Bool := true
  killOk : Bool := true

/-- `Client.close`: return immediately when already closed; record
`last_vm_id`, clear the local VFS hooks and stop the network hook server
(pure state updates that never raise); return when the process is absent or
already exited; otherwise attempt the `close` RPC, the stdin close and the
wait/kill, each failure swallowed by its `try/except: pass` (modelled by the
discarded `let` results). -/
def close (st : CloseState) (env : CloseEnv) (timeout : ℚ) :
    CloseState × Except ClientError Unit :=
  if st.closed then (st, .ok ())
  else
    let st1 := { st with closed := true, last_vm_id := st.vm_id }
    if ¬ st.processSome ∨ env.pollExited then (st1, .ok ())
    else
      let effectiveTimeout := if 0 < timeout then timeout else 2
      let rpcAttempt : Except ClientError Unit :=
        match env.closeRpcOutcome with
        | .completedOk _ => .ok ()
        | .completedErr c m => .error (.rpc c m)
        | .timedOut => .error (.timeoutErr (timeoutMsg "close" 0 (effectiveTimeout + 1)))
      let _ := rpcAttempt
      let stdinAttempt : Except ClientError Unit :=
        if env.stdinCloseOk then .ok () else .error (.osError "stdin close failed")
      let _ := stdinAttempt
      let waitAttempt : Except ClientError Unit :=
        if env.waitOk then .ok ()
        else if env.killOk then .ok () else .ok ()
      let _ := waitAttempt
      (st1, .ok ())

/-- Environment oracle for `remove`: the `subprocess.run` of
`matchlock rm <id>` either spawns and yields an exit code, or fails to spawn
(an `OSError`-like exception). -/
structure RemoveEnv where
  rmRun : Except ClientError Nat

/-- Python `a or b` over optional strings (empty strings are falsy). -/
def pyStrOr (a b : Option String) : String :=
  if a.getD "" ≠ "" then a.getD "" else b.getD ""

/-- `Client.remove`: no-op when neither `vm_id` nor `last_vm_id` is a
non-empty string; otherwise run the CLI with `check=True`, so a spawn failure
or a non-zero exit code raises. -/
def remove (st : CloseState) (env : RemoveEnv) : Except ClientError Unit :=
  if pyStrOr st.vm_id st.last_vm_id = "" then .ok ()
  else
    match env.rmRun with
    | .error e => .error e
    | .ok code => if code = 0 then .ok () else .error (.calledProcess code)

/-! ## create (`Client.create`, `Client._build_create_network_params`,
`Client._resolve_create_block_private_ips`) -/

/-- `types.Secret`. -/
structure Secret where
  name : String
  value : String
  hosts : List String := []

/-- `types.MountConfig`. -/
structure MountConfig where
  type : String := "memory"
  host_path : String := ""
  readonly : Bool := false

/-- `MountConfig.to_dict`. -/
def mountConfigToJson (m : MountConfig) : JsonValue :=
  .obj ([("type", .str m.type)] ++
    (if m.host_path ≠ "" then [("host_path", .str m.host_path)] else []) ++
    (if m.readonly then [("readonly", .bool true)] else []))

/-- `types.ImageConfig`. -/
structure ImageConfig where
  user : String := ""
  working_dir : String := ""
  entrypoint : List String := []
  cmd : List String := []
  env : List (String × String) := []

/-- `ImageConfig.to_dict`. -/
def imageConfigToJson (c : ImageConfig) : JsonValue :=
  .obj ((if c.user ≠ "" then [("user", .str c.user)] else []) ++
    (if c.working_dir ≠ "" then [("working_dir", .str c.working_dir)] else []) ++
    (if c.entrypoint.isEmpty then [] else [("entrypoint", JsonValue.arr (c.entrypoint.map JsonValue.str))]) ++
    (if c.cmd.isEmpty then [] else [("cmd", JsonValue.arr (c.cmd.map JsonValue.str))]) ++
    (if c.env.isEmpty then [] else [("env", stringMapToJson c.env)]))

/-- `types.CreateOptions`.  `cpus` is a rational (Python float); dict-valued
fields are association lists in insertion order. -/
structure CreateOptions where
  image : String := ""
  privileged : Bool := false
  cpus : ℚ := 0
  memory_mb : Int := 0
  disk_size_mb : Int := 0
  timeout_seconds : Int := 0
  allowed_hosts : List String := []
  block_private_ips : Bool := false
  block_private_ips_set : Bool := false
  no_network : Bool := false
  force_interception : Bool := false
  network_interception : Option NetworkInterceptionConfig := none
  mounts : List (String × MountConfig) := []
  env : List (String × String) := []
  vfs_interception : Option VFSInterceptionConfig := none
  secrets : List Secret := []
  workspace : String := ""
  dns_servers : List String := []
  hostname : String := ""
  network_mtu : Int := 0
  image_config : Option ImageConfig := none
  launch_entrypoint : Bool := false

/-- `Client._resolve_create_block_private_ips`: `(value, explicitly-set)`.
An explicit set wins; a legacy bare `block_private_ips = True` counts as an
explicit true. -/
def resolveCreateBlockPrivateIps (opts : CreateOptions) : Bool × Bool :=
  if opts.block_private_ips_set then (opts.block_private_ips, true)
  else if opts.block_private_ips then (true, true)
  else (false, false)

/-- `VFSHookRule.to_dict`. -/
def vfsRuleToJson (r : VFSHookRule) : JsonValue :=
  .obj ([("action", .str r.action)] ++
    (if r.name ≠ "" then [("name", .str r.name)] else []) ++
    (if r.phase ≠ "" then [("phase", .str r.phase)] else []) ++
    (if r.ops.isEmpty then [] else [("ops", JsonValue.arr (r.ops.map JsonValue.str))]) ++
    (if r.path ≠ "" then [("path", .str r.path)] else []) ++
    (if r.timeout_ms > 0 then [("timeout_ms", JsonValue.num r.timeout_ms)] else []))

/-- `VFSInterceptionConfig.to_dict`. -/
def vfsConfigToJson (cfg : VFSInterceptionConfig) : JsonValue :=
  .obj ((if cfg.emit_events then [("emit_events", .bool true)] else []) ++
    (if cfg.rules.isEmpty then [] else [("rules", JsonValue.arr (cfg.rules.map vfsRuleToJson))]))

/-- The wire JSON of one network rule: the `to_dict` keys in order, then the
`callback_id` the compiler may have appended. -/
def wireNetworkRuleToJson (r : WireNetworkRule) : JsonValue :=
  .obj ([("action", .str r.action)] ++
    (match r.name with | some v => [("name", JsonValue.str v)] | none => []) ++
    (match r.phase with | some v => [("phase", JsonValue.str v)] | none => []) ++
    (match r.hosts with | some v => [("hosts", JsonValue.arr (v.map JsonValue.str))] | none => []) ++
    (match r.methods with | some v => [("methods", JsonValue.arr (v.map JsonValue.str))] | none => []) ++
    (match r.path with | some v => [("path", JsonValue.str v)] | none => []) ++
    (match r.set_headers with | some v => [("set_headers", stringMapToJson v)] | none => []) ++
    (match r.delete_headers with | some v => [("delete_headers", JsonValue.arr (v.map JsonValue.str))] | none => []) ++
    (match r.set_query with | some v => [("set_query", stringMapToJson v)] | none => []) ++
    (match r.delete_query with | some v => [("delete_query", JsonValue.arr (v.map JsonValue.str))] | none => []) ++
    (match r.rewrite_path with | some v => [("rewrite_path", JsonValue.str v)] | none => []) ++
    (match r.set_response_headers with | some v => [("set_response_headers", stringMapToJson v)] | none => []) ++
    (match r.delete_response_headers with | some v => [("delete_response_headers", JsonValue.arr (v.map JsonValue.str))] | none => []) ++
    (match r.body_replacements with | some v => [("body_replacements", JsonValue.arr (v.map networkBodyTransformToJson))] | none => []) ++
    (match r.timeout_ms with | some v => [("timeout_ms", JsonValue.num v)] | none => []) ++
    (match r.callback_id with | some v => [("callback_id", JsonValue.str v)] | none => []))

/-- The wire network interception dict (`{"rules": ...}` plus
`callback_socket` when attached). -/
def wireNetworkConfigToJson (cfg : WireNetworkConfig) : JsonValue :=
  .obj ((if cfg.rules.isEmpty then []
         else [("rules", JsonValue.arr (cfg.rules.map wireNetworkRuleToJson))]) ++
    (match cfg.callback_socket with | some s => [("callback_socket", JsonValue.str s)] | none => []))

/-- `Client._build_create_network_params`: `None` when no network field is
set; the `{no_network: true, ...}` form when `no_network`; otherwise the full
dict with `block_private_ips` rebuilt as `true` unless explicitly
overridden. -/
def buildCreateNetworkParams (opts : CreateOptions)
    (wireInterception : Option WireNetworkConfig) : Option JsonValue :=
  let resolved := resolveCreateBlockPrivateIps opts
  let includeNetwork : Bool :=
    !opts.allowed_hosts.isEmpty || !opts.secrets.isEmpty || !opts.dns_servers.isEmpty ||
    opts.hostname != "" || decide (0 < opts.network_mtu) || opts.no_network ||
    resolved.2 || opts.force_interception || wireInterception.isSome
  if !includeNetwork then none
  else if opts.no_network then
    some (.obj ([("no_network", .bool true)] ++
      (if opts.dns_servers.isEmpty then []
       else [("dns_servers", JsonValue.arr (opts.dns_servers.map JsonValue.str))]) ++
      (if opts.hostname != "" then [("hostname", JsonValue.str opts.hostname)] else [])))
  else
    some (.obj ([("allowed_hosts", JsonValue.arr (opts.allowed_hosts.map JsonValue.str)),
                 ("block_private_ips", .bool (if resolved.2 then resolved.1 else true))] ++
      (if opts.force_interception || wireInterception.isSome
       then [("intercept", JsonValue.bool true)] else []) ++
      (match wireInterception with
       | some w => [("interception", wireNetworkConfigToJson w)]
       | none => []) ++
      (if opts.secrets.isEmpty then []
       else [("secrets", JsonValue.obj (opts.secrets.map (fun s =>
          (s.name, JsonValue.obj [("value", JsonValue.str s.value),
                                  ("hosts", JsonValue.arr (s.hosts.map JsonValue.str))]))))]) ++
      (if opts.dns_servers.isEmpty then []
       else [("dns_servers", JsonValue.arr (opts.dns_servers.map JsonValue.str))]) ++
      (if opts.hostname != "" then [("hostname", JsonValue.str opts.hostname)] else []) ++
      (if 0 < opts.network_mtu then [("mtu", JsonValue.num opts.network_mtu)] else [])))

/-- `create` params assembly (`Client.create`, lines building `params`). -/
def buildCreateParams (opts : CreateOptions) (wireVfs : Option VFSInterceptionConfig)
    (network : Option JsonValue) : JsonValue :=
  let resources : List (String × JsonValue) :=
    (if opts.cpus ≠ 0 then [("cpus", JsonValue.num opts.cpus)] else []) ++
    (if opts.memory_mb ≠ 0 then [("memory_mb", JsonValue.num opts.memory_mb)] else []) ++
    (if opts.disk_size_mb ≠ 0 then [("disk_size_mb", JsonValue.num opts.disk_size_mb)] else []) ++
    (if opts.timeout_seconds ≠ 0 then [("timeout_seconds", JsonValue.num opts.timeout_seconds)] else [])
  .obj ([("image", .str opts.image)] ++
    (if resources.isEmpty then [] else [("resources", JsonValue.obj resources)]) ++
    (match network with | some n => [("network", n)] | none => []) ++
    (if !opts.mounts.isEmpty || opts.workspace != "" || wireVfs.isSome then
       [("vfs", JsonValue.obj (
         (if opts.mounts.isEmpty then []
          else [("mounts", JsonValue.obj (opts.mounts.map (fun kv => (kv.1, mountConfigToJson kv.2))))]) ++
         (if opts.workspace ≠ "" then [("workspace", JsonValue.str opts.workspace)] else []) ++
         (match wireVfs with | some v => [("interception", vfsConfigToJson v)] | none => [])))]
     else []) ++
    (if opts.env.isEmpty then [] else [("env", stringMapToJson opts.env)]) ++
    (match opts.image_config with | some ic => [("image_config", imageConfigToJson ic)] | none => []))

/-- Observable effects of one `create` call. -/
inductive CreateEffect where
  | rpc (method : String) (params : JsonValue)
  | hookServerStarted (socketPath : String)
  | hookServerStopped

/-- Environment oracle for `create`: subprocess liveness, the temp socket
path and bind outcome for `_start_network_hook_server`, and the reply to the
`create` RPC. -/
structure CreateEnv where
  processRunning : Bool := true
  socketPath : String := "/tmp/matchlock-network-hook/hook.sock"
  bindOk : Bool := true
  createOutcome : RpcOutcome := .completedOk (.obj [("id", .str "vm-1")])

/-- `Client.create`: validate the options (before anything else), compile the
VFS and network hooks, stop any previous hook server, start a new one when
the network registry is non-empty (attaching `callback_socket`), build the
params, send the `create` RPC and extract `id` from the reply — tearing the
just-started hook server down on any failure after its start.  Returns the
effect trace and the result (the reply's `id`). -/
def create (opts : CreateOptions) (env : CreateEnv) :
    List CreateEffect × Except ClientError JsonValue :=
  if opts.image = "" then
    ([], .error (.matchlock "image is required (e.g., alpine:latest)"))
  else if opts.network_mtu < 0 then
    ([], .error (.matchlock "network mtu must be > 0"))
  else if opts.no_network ∧ (¬ opts.allowed_hosts.isEmpty ∨ ¬ opts.secrets.isEmpty ∨
        opts.force_interception ∨ opts.network_interception.isSome) then
    ([], .error (.matchlock ("no network cannot be combined with allowed hosts, secrets, " ++
      "forced interception, or network interception rules")))
  else
    match compileVFSHooks opts.vfs_interception with
    | .error e => ([], .error e)
    | .ok (wireVfs, _localHooks, _localMutate, _localAction) =>
      match compileNetworkHooks opts.network_interception with
      | .error e => ([], .error e)
      | .ok (wireNet0, reg) =>
        let started := !reg.isEmpty
        if started ∧ ¬ env.bindOk then
          ([CreateEffect.hookServerStopped], .error (.osError "failed to bind hook socket"))
        else
          let wireNet : Option WireNetworkConfig :=
            if started then some { wireNet0.getD {} with callback_socket := some env.socketPath }
            else wireNet0
          let effs1 := [CreateEffect.hookServerStopped] ++
            (if started then [CreateEffect.hookServerStarted env.socketPath] else [])
          let params := buildCreateParams opts wireVfs (buildCreateNetworkParams opts wireNet)
          if ¬ env.processRunning then
            (effs1 ++ (if started then [CreateEffect.hookServerStopped] else []),
             .error (.matchlock "Matchlock process not running"))
          else
            let effs2 := effs1 ++ [CreateEffect.rpc "create" params]
            match env.createOutcome with
            | .completedErr c m =>
              (effs2 ++ (if started then [CreateEffect.hookServerStopped] else []),
               .error (.rpc c m))
            | .timedOut =>
              (effs2 ++ (if started then [CreateEffect.hookServerStopped] else []),
               .error (.timeoutErr (timeoutMsg "create" 0 0)))
            | .completedOk v =>
              match lookupObj v "id" with
              | some idv => (effs2, .ok idv)
              | none =>
                (effs2 ++ (if started then [CreateEffect.hookServerStopped] else []),
                 .error (.matchlock "invalid create response: missing id"))


/-! ## Characterisation lemmas for the write_file hook pipeline -/

/-- On a successful run, `_apply_local_write_mutations` invoked exactly the
matching hooks in declaration order and produced the left fold of their
transformations. -/
theorem applyLocalWriteMutationsT_ok (uid gid : Nat) (path : String) (mode : Nat) :
    ∀ (hooks : List LocalVFSMutateHook) (cur : List Nat) (t : List WriteEvent) (final : List Nat),
      applyLocalWriteMutationsT uid gid path mode cur hooks = (t, .ok final) →
      t = (hooks.filter (mutateHookMatches path)).map
            (fun h => WriteEvent.mutateHookCall h.name) ∧
      final = (hooks.filter (mutateHookMatches path)).foldl (mutateStepFn uid gid path mode) cur := by
  intro hooks
  induction hooks with
  | nil =>
    intro cur t final ht
    simp only [applyLocalWriteMutationsT, Prod.mk.injEq] at ht
    obtain ⟨h1, h2⟩ := ht
    cases h2
    simp [h1.symm]
  | cons h rest ih =>
    intro cur t final ht
    by_cases hm : mutateHookMatches path h
    · rw [applyLocalWriteMutationsT, if_pos hm] at ht
      split at ht
      · rename_i hhk
        rcases hrec : applyLocalWriteMutationsT uid gid path mode cur rest with ⟨t2, e2⟩
        rw [hrec] at ht
        simp only [Prod.mk.injEq] at ht
        obtain ⟨h1, h2⟩ := ht
        subst h2
        obtain ⟨ha, hb⟩ := ih cur t2 final hrec
        simp [h1.symm, List.filter_cons, hm, ha, hb, mutateStepFn, hhk]
      · rename_i s hhk
        rcases hrec : applyLocalWriteMutationsT uid gid path mode (strBytes s) rest with ⟨t2, e2⟩
        rw [hrec] at ht
        simp only [Prod.mk.injEq] at ht
        obtain ⟨h1, h2⟩ := ht
        subst h2
        obtain ⟨ha, hb⟩ := ih (strBytes s) t2 final hrec
        simp [h1.symm, List.filter_cons, hm, ha, hb, mutateStepFn, hhk]
      · rename_i b hhk
        rcases hrec : applyLocalWriteMutationsT uid gid path mode b rest with ⟨t2, e2⟩
        rw [hrec] at ht
        simp only [Prod.mk.injEq] at ht
        obtain ⟨h1, h2⟩ := ht
        subst h2
        obtain ⟨ha, hb⟩ := ih b t2 final hrec
        simp [h1.symm, List.filter_cons, hm, ha, hb, mutateStepFn, hhk]
      · simp only [Prod.mk.injEq] at ht
        exact absurd ht.2 (by simp)
    · rw [applyLocalWriteMutationsT, if_neg hm] at ht
      obtain ⟨ha, hb⟩ := ih cur t final ht
      simp [List.filter_cons, hm, ha, hb]

/-- On a successful run, `_apply_local_action_hooks` invoked exactly the
matching hooks in declaration order. -/
theorem applyLocalActionHooksT_ok (uid gid : Nat) (op path : String) (size mode : Nat) :
    ∀ (hooks : List LocalVFSActionHook) (t : List WriteEvent),
      applyLocalActionHooksT uid gid op path size mode hooks = (t, .ok ()) →
      t = (hooks.filter (actionHookMatches op path)).map
            (fun h => WriteEvent.actionHookCall h.name) := by
  intro hooks
  induction hooks with
  | nil =>
    intro t ht
    simp only [applyLocalActionHooksT, Prod.mk.injEq] at ht
    simp [ht.1.symm]
  | cons h rest ih =>
    intro t ht
    by_cases hm : actionHookMatches op path h
    · rw [applyLocalActionHooksT, if_pos hm] at ht
      rw [actionDecisionStep] at ht
      by_cases hd : (pyLower (pyStrip (h.hook { op := op, path := path, size := size, mode := mode, uid := uid, gid := gid })) == ""
          || pyLower (pyStrip (h.hook { op := op, path := path, size := size, mode := mode, uid := uid, gid := gid })) == "allow") = true
      · rw [if_pos hd] at ht
        rcases hrec : applyLocalActionHooksT uid gid op path size mode rest with ⟨t2, e2⟩
        rw [hrec] at ht
        simp only [Prod.mk.injEq] at ht
        obtain ⟨h1, h2⟩ := ht
        subst h2
        have := ih t2 hrec
        simp [h1.symm, List.filter_cons, hm, this]
      · rw [if_neg hd] at ht
        by_cases hb : (pyLower (pyStrip (h.hook { op := op, path := path, size := size, mode := mode, uid := uid, gid := gid })) == "block") = true
        · rw [if_pos hb] at ht
          simp only [Prod.mk.injEq] at ht
          exact absurd ht.2 (by simp)
        · rw [if_neg hb] at ht
          simp only [Prod.mk.injEq] at ht
          exact absurd ht.2 (by simp)
    · rw [applyLocalActionHooksT, if_neg hm] at ht
      have := ih t ht
      simp [List.filter_cons, hm, this]

/-- If the first `l1` mutate hooks succeed producing bytes `c1`, running
`l1 ++ l2` runs `l1` and then continues with `l2` from `c1`. -/
theorem applyLocalWriteMutationsT_append_ok (uid gid : Nat) (path : String) (mode : Nat) :
    ∀ (l1 l2 : List LocalVFSMutateHook) (cur : List Nat) (t1 : List WriteEvent) (c1 : List Nat),
      applyLocalWriteMutationsT uid gid path mode cur l1 = (t1, .ok c1) →
      applyLocalWriteMutationsT uid gid path mode cur (l1 ++ l2) =
        (t1 ++ (applyLocalWriteMutationsT uid gid path mode c1 l2).1,
         (applyLocalWriteMutationsT uid gid path mode c1 l2).2) := by
  intro l1
  induction l1 with
  | nil =>
    intro l2 cur t1 c1 h1
    simp only [applyLocalWriteMutationsT, Prod.mk.injEq] at h1
    obtain ⟨ha, hb⟩ := h1
    cases hb
    simp [ha.symm]
  | cons h rest ih =>
    intro l2 cur t1 c1 h1
    by_cases hm : mutateHookMatches path h
    · rw [applyLocalWriteMutationsT, if_pos hm] at h1
      rw [List.cons_append, applyLocalWriteMutationsT, if_pos hm]
      split at h1
      · rename_i hhk
        rcases hrec : applyLocalWriteMutationsT uid gid path mode cur rest with ⟨t2, e2⟩
        rw [hrec] at h1
        simp only [Prod.mk.injEq] at h1
        obtain ⟨ha, hb⟩ := h1
        subst hb
        rw [ih l2 cur t2 c1 hrec]
        simp [ha.symm]
      · rename_i s hhk
        rcases hrec : applyLocalWriteMutationsT uid gid path mode (strBytes s) rest with ⟨t2, e2⟩
        rw [hrec] at h1
        simp only [Prod.mk.injEq] at h1
        obtain ⟨ha, hb⟩ := h1
        subst hb
        rw [ih l2 (strBytes s) t2 c1 hrec]
        simp [ha.symm]
      · rename_i b hhk
        rcases hrec : applyLocalWriteMutationsT uid gid path mode b rest with ⟨t2, e2⟩
        rw [hrec] at h1
        simp only [Prod.mk.injEq] at h1
        obtain ⟨ha, hb⟩ := h1
        subst hb
        rw [ih l2 b t2 c1 hrec]
        simp [ha.symm]
      · simp only [Prod.mk.injEq] at h1
        exact absurd h1.2 (by simp)
    · rw [applyLocalWriteMutationsT, if_neg hm] at h1
      rw [List.cons_append, applyLocalWriteMutationsT, if_neg hm]
      exact ih l2 cur t1 c1 h1

/-- C1: on every successful `write_file`, all matching local write action
hooks are evaluated (in declaration order) strictly before any mutate hook,
the matching mutate hooks run in declaration order (a `None` return keeps the
current bytes, by `mutateStepFn`), and the `write_file` RPC frame carries
exactly the base64 encoding of the final folded bytes. -/
theorem writeFile_action_then_mutate_then_rpc (st : ClientVFSState) (uid gid : Nat)
    (path : String) (content : WriteContent) (mode : Nat) (tr : List WriteEvent)
    (ht : writeFileT st uid gid path content mode = (tr, .ok ())) :
    tr = (st.vfs_action_hooks.filter (actionHookMatches "write" path)).map
           (fun h => WriteEvent.actionHookCall h.name)
      ++ (st.vfs_mutate_hooks.filter (mutateHookMatches path)).map
           (fun h => WriteEvent.mutateHookCall h.name)
      ++ [WriteEvent.rpcWriteFile path
            (base64Encode ((st.vfs_mutate_hooks.filter (mutateHookMatches path)).foldl
              (mutateStepFn uid gid path mode) (contentBytes content))) mode] := by
  simp only [writeFileT] at ht
  split at ht
  · exact absurd ht (by simp)
  · rename_i u hu
    cases u
    split at ht
    · exact absurd ht (by simp)
    · rename_i final hfin
      simp only [Prod.mk.injEq] at ht
      obtain ⟨h1, _⟩ := ht
      have hafull : applyLocalActionHooksT uid gid "write" path (contentBytes content).length mode
          st.vfs_action_hooks =
          ((applyLocalActionHooksT uid gid "write" path (contentBytes content).length mode
            st.vfs_action_hooks).1, .ok ()) := by
        rw [← hu]
      have hmfull : applyLocalWriteMutationsT uid gid path mode (contentBytes content)
          st.vfs_mutate_hooks =
          ((applyLocalWriteMutationsT uid gid path mode (contentBytes content)
            st.vfs_mutate_hooks).1, .ok final) := by
        rw [← hfin]
      have hA := applyLocalActionHooksT_ok uid gid "write" path (contentBytes content).length mode
        st.vfs_action_hooks _ hafull
      obtain ⟨hM1, hM2⟩ := applyLocalWriteMutationsT_ok uid gid path mode
        st.vfs_mutate_hooks (contentBytes content) _ final hmfull
      rw [← h1, hA, hM1, hM2]

/-- C1 witness: the pipeline evaluated on a concrete state (one allowing
action hook, a str-returning and a None-returning mutate hook) matches the
characterisation. -/
theorem writeFile_action_then_mutate_then_rpc_witness :
    [WriteEvent.actionHookCall "a1", WriteEvent.mutateHookCall "m1",
     WriteEvent.mutateHookCall "m2", WriteEvent.rpcWriteFile "/w" "eHk=" 420]
    = (wState1.vfs_action_hooks.filter (actionHookMatches "write" "/w")).map
        (fun h => WriteEvent.actionHookCall h.name)
      ++ (wState1.vfs_mutate_hooks.filter (mutateHookMatches "/w")).map
          (fun h => WriteEvent.mutateHookCall h.name)
      ++ [WriteEvent.rpcWriteFile "/w"
            (base64Encode ((wState1.vfs_mutate_hooks.filter (mutateHookMatches "/w")).foldl
              (mutateStepFn 0 0 "/w" 420) (contentBytes (.bytes [104, 105])))) 420] :=
  writeFile_action_then_mutate_then_rpc wState1 0 0 "/w" (.bytes [104, 105]) 420 _ rfl


/-- C10: (a) a matching mutate hook returning a `str` has its value UTF-8
encoded and threaded as the current content for the remaining hooks; (b) if
the action hooks pass and, after a successful prefix of mutate hooks, a
matching hook returns a value that is neither bytes, str nor None, then
`write_file` raises the `MatchlockError` naming that hook and no `write_file`
RPC frame is emitted. -/
theorem writeFile_mutate_return_handling (st : ClientVFSState) (uid gid : Nat)
    (path : String) (mode : Nat) :
    (∀ (cur : List Nat) (h : LocalVFSMutateHook) (rest : List LocalVFSMutateHook) (s : String),
       mutateHookMatches path h = true →
       h.hook { path := path, size := cur.length, mode := mode, uid := uid, gid := gid } = .str s →
       applyLocalWriteMutationsT uid gid path mode cur (h :: rest) =
         (WriteEvent.mutateHookCall h.name ::
            (applyLocalWriteMutationsT uid gid path mode (strBytes s) rest).1,
          (applyLocalWriteMutationsT uid gid path mode (strBytes s) rest).2)) ∧
    (∀ (content : WriteContent) (pre rest : List LocalVFSMutateHook)
       (h : LocalVFSMutateHook) (ta t0 : List WriteEvent) (cur : List Nat),
       st.vfs_mutate_hooks = pre ++ h :: rest →
       applyLocalActionHooksT uid gid "write" path (contentBytes content).length mode
         st.vfs_action_hooks = (ta, .ok ()) →
       applyLocalWriteMutationsT uid gid path mode (contentBytes content) pre = (t0, .ok cur) →
       mutateHookMatches path h = true →
       h.hook { path := path, size := cur.length, mode := mode, uid := uid, gid := gid } = .other →
       (writeFileT st uid gid path content mode).2 =
         .error (.matchlock (invalidMutateReturnMsg h.name)) ∧
       traceHasRpc (writeFileT st uid gid path content mode).1 = false) := by
  constructor
  · intro cur h rest s hm hhk
    rw [applyLocalWriteMutationsT, if_pos hm, hhk]
  · intro content pre rest h ta t0 cur hsplit hact hpre hm hhk
    have hcons : applyLocalWriteMutationsT uid gid path mode cur (h :: rest) =
        ([WriteEvent.mutateHookCall h.name],
         .error (.matchlock (invalidMutateReturnMsg h.name))) := by
      rw [applyLocalWriteMutationsT, if_pos hm, hhk]
    have hall : applyLocalWriteMutationsT uid gid path mode (contentBytes content)
        st.vfs_mutate_hooks =
        (t0 ++ [WriteEvent.mutateHookCall h.name],
         .error (.matchlock (invalidMutateReturnMsg h.name))) := by
      rw [hsplit, applyLocalWriteMutationsT_append_ok uid gid path mode pre (h :: rest)
        (contentBytes content) t0 cur hpre, hcons]
    have hta : ta = (st.vfs_action_hooks.filter (actionHookMatches "write" path)).map
        (fun x => WriteEvent.actionHookCall x.name) :=
      applyLocalActionHooksT_ok uid gid "write" path (contentBytes content).length mode
        st.vfs_action_hooks ta hact
    have ht0 := (applyLocalWriteMutationsT_ok uid gid path mode pre
      (contentBytes content) t0 cur hpre).1
    simp only [writeFileT, hact, hall]
    refine ⟨trivial, ?_⟩
    rw [hta, ht0]
    simp [traceHasRpc, List.any_append, List.any_map, Function.comp]
    refine ⟨fun x x1 _ _ hx => ?_, fun x x1 _ _ hx => ?_⟩ <;> (subst hx; rfl)

/-- C10 witness: on a state with a single invalid-return mutate hook,
`write_file` raises the naming error and emits no RPC frame. -/
theorem writeFile_mutate_return_handling_witness :
    (writeFileT wStateBad 0 0 "/p" (.bytes [1]) 420).2 =
      .error (.matchlock (invalidMutateReturnMsg "bad")) ∧
    traceHasRpc (writeFileT wStateBad 0 0 "/p" (.bytes [1]) 420).1 = false :=
  (writeFile_mutate_return_handling wStateBad 0 0 "/p" 420).2
    (.bytes [1]) [] [] wMutateBad [] [] [1] rfl rfl rfl rfl rfl

/-! ## VFS hook compilation: rejection and wire-shape lemmas -/

/-- Each rule satisfying an amended-C2 rejection condition makes the per-rule
compiler raise. -/
theorem badVFSRule_error (r : VFSHookRule) (hb : badVFSRule r) :
    ∃ e, compileVFSRule r = .error e := by
  unfold compileVFSRule
  by_cases h1 : ruleCallbackCount r > 1
  · rw [if_pos h1]; exact ⟨_, rfl⟩
  rw [if_neg h1]
  rcases hb with hb | ⟨hs, hcond⟩ | ⟨hs, hph⟩ | ⟨hnc, hmw⟩
  · exact absurd hb h1
  · have hncf : ¬ (ruleHasNoCallback r = true) := by
      intro hnc
      simp only [ruleHasNoCallback, Bool.and_eq_true, Option.isNone_iff_eq_none] at hnc
      rcases hs with hs | hs
      · rw [hnc.1.1.1] at hs; simp at hs
      · rw [hnc.1.1.2] at hs; simp at hs
    rw [if_neg hncf]
    rcases hs with hs | hs
    · obtain ⟨hk, hkeq⟩ := Option.isSome_iff_exists.mp hs
      simp only [hkeq]
      by_cases hA : normAction r.action ≠ "" ∧ normAction r.action ≠ "allow"
      · rw [if_pos hA]; exact ⟨_, rfl⟩
      · rw [if_neg hA]
        have hphase : pyLower r.phase ≠ "after" := by
          rcases hcond with hc | hc
          · exact absurd hc hA
          · exact hc
        rw [if_pos hphase]; exact ⟨_, rfl⟩
    · cases hhook : r.hook with
      | some hk =>
        exfalso
        apply h1
        have e1 : r.hook.isSome = true := by rw [hhook]; rfl
        unfold ruleCallbackCount
        rw [if_pos e1, if_pos hs]
        omega
      | none =>
        simp only [hhook]
        obtain ⟨hk, hkeq⟩ := Option.isSome_iff_exists.mp hs
        simp only [hkeq]
        by_cases hA : normAction r.action ≠ "" ∧ normAction r.action ≠ "allow"
        · rw [if_pos hA]; exact ⟨_, rfl⟩
        · rw [if_neg hA]
          have hphase : pyLower r.phase ≠ "after" := by
            rcases hcond with hc | hc
            · exact absurd hc hA
            · exact hc
          rw [if_pos hphase]; exact ⟨_, rfl⟩
  · cases hhook : r.hook with
    | some hk =>
      exfalso
      apply h1
      have e1 : r.hook.isSome = true := by rw [hhook]; rfl
      unfold ruleCallbackCount
      rcases hs with hs | hs
      · rw [if_pos e1, if_pos hs]; omega
      · rw [if_pos e1, if_pos hs]; omega
    | none =>
      cases hdang : r.dangerous_hook with
      | some dk =>
        exfalso
        apply h1
        have e1 : r.dangerous_hook.isSome = true := by rw [hdang]; rfl
        unfold ruleCallbackCount
        rcases hs with hs | hs
        · rw [if_pos e1, if_pos hs]; omega
        · rw [if_pos e1, if_pos hs]; omega
      | none =>
        have hncf : ¬ (ruleHasNoCallback r = true) := by
          intro hnc
          simp only [ruleHasNoCallback, Bool.and_eq_true, Option.isNone_iff_eq_none] at hnc
          rcases hs with hs | hs
          · rw [hnc.1.2] at hs; simp at hs
          · rw [hnc.2] at hs; simp at hs
        rw [if_neg hncf]
        simp only [hhook, hdang]
        cases hact : r.action_hook with
        | some ak =>
          simp only []
          by_cases hA : normAction r.action ≠ "" ∧ normAction r.action ≠ "allow"
          · rw [if_pos hA]; exact ⟨_, rfl⟩
          · rw [if_neg hA, if_pos hph]; exact ⟨_, rfl⟩
        | none =>
          simp only [hact]
          have hmut : r.mutate_hook.isSome = true := by
            rcases hs with hs | hs
            · exact hs
            · rw [hact] at hs; simp at hs
          obtain ⟨mk, hmk⟩ := Option.isSome_iff_exists.mp hmut
          simp only [hmk]
          by_cases hA : normAction r.action ≠ "" ∧ normAction r.action ≠ "allow"
          · rw [if_pos hA]; exact ⟨_, rfl⟩
          · rw [if_neg hA, if_pos hph]; exact ⟨_, rfl⟩
  · rw [if_pos hnc, if_pos hmw]; exact ⟨_, rfl⟩

/-- A rule that the per-rule compiler rejects makes the whole loop raise. -/
theorem compileVFSRules_error_of_mem :
    ∀ (rules : List VFSHookRule) (r : VFSHookRule), r ∈ rules →
      (∃ e, compileVFSRule r = .error e) → ∃ e2, compileVFSRules rules = .error e2 := by
  intro rules
  induction rules with
  | nil => intro r hr _; exact absurd hr (List.not_mem_nil r)
  | cons h t ih =>
    intro r hr he
    rcases List.mem_cons.mp hr with rfl | hrt
    · obtain ⟨e, he⟩ := he
      exact ⟨e, by simp only [compileVFSRules, he]⟩
    · cases hch : compileVFSRule h with
      | error e => exact ⟨e, by simp only [compileVFSRules, hch]⟩
      | ok c =>
        obtain ⟨e2, he2⟩ := ih r hrt he
        exact ⟨e2, by simp only [compileVFSRules, hch, he2]⟩

/-- C2 (amended): VFS hook compilation raises a client error whenever the
rule list contains a rule with more than one callback; a safe or dangerous
after-hook whose normalised wire action is neither empty nor `allow` or whose
lower-cased phase is not `after`; a mutate or action hook whose phase is
non-empty and, lower-cased, not `before`; or a callback-less rule whose
normalised wire action is `mutate_write`.  (String comparisons are on the
stripped/lower-cased values the code computes; a mutate/action hook with an
entirely empty phase is accepted.) -/
theorem compileVFSHooks_rejects_bad_rule (cfg : VFSInterceptionConfig) (r : VFSHookRule)
    (hmem : r ∈ cfg.rules) (hbad : badVFSRule r) :
    ∃ e, compileVFSHooks (some cfg) = .error e := by
  obtain ⟨e2, he2⟩ := compileVFSRules_error_of_mem cfg.rules r hmem (badVFSRule_error r hbad)
  exact ⟨e2, by simp only [compileVFSHooks, he2]⟩

/-- C2 witness: a rule with two callbacks set is rejected. -/
theorem compileVFSHooks_rejects_bad_rule_witness :
    ∃ e, compileVFSHooks (some { emit_events := false, rules := [cexTwoCallbacksRule] })
      = .error e :=
  compileVFSHooks_rejects_bad_rule { emit_events := false, rules := [cexTwoCallbacksRule] }
    cexTwoCallbacksRule (by simp) (by left; decide)

/-- C2 counterexample: a mutate hook whose phase is the empty string (which
is not `before`) is accepted by the compiler, contradicting the claim that
every mutate or action hook whose phase is not `before` is rejected. -/
theorem compileVFSHooks_accepts_empty_phase_mutate :
    cexC2Rule.mutate_hook.isSome = true ∧ cexC2Rule.phase ≠ "before" ∧
    exceptOk (compileVFSHooks (some { emit_events := false, rules := [cexC2Rule] })) = true :=
  ⟨rfl, by decide, rfl⟩

/-- On success, the per-rule compiler produces a verbatim wire rule exactly
for callback-less rules. -/
theorem compileVFSRule_ok_wire (r : VFSHookRule) (c : CompiledRule)
    (hok : compileVFSRule r = .ok c) :
    wireOf c = if ruleHasNoCallback r then some r else none := by
  unfold compileVFSRule at hok
  by_cases h1 : ruleCallbackCount r > 1
  · rw [if_pos h1] at hok; simp at hok
  rw [if_neg h1] at hok
  by_cases h2 : ruleHasNoCallback r = true
  · rw [if_pos h2] at hok
    by_cases h3 : normAction r.action = "mutate_write"
    · rw [if_pos h3] at hok; simp at hok
    · rw [if_neg h3] at hok
      simp only [Except.ok.injEq] at hok
      rw [if_pos h2, ← hok]
      rfl
  · rw [if_neg h2] at hok
    rw [if_neg h2]
    repeat' split at hok
    all_goals
      first
        | (simp only [Except.ok.injEq] at hok; subst hok; rfl)
        | simp at hok

/-- On a successful compilation, the wire component of the split equals the
callback-less rules in declaration order. -/
theorem compileVFSRules_wire (rules : List VFSHookRule) :
    ∀ cs, compileVFSRules rules = .ok cs →
      (splitCompiled cs).1 = rules.filter ruleHasNoCallback := by
  induction rules with
  | nil =>
    intro cs h
    simp only [compileVFSRules, Except.ok.injEq] at h
    subst h
    rfl
  | cons r rest ih =>
    intro cs h
    simp only [compileVFSRules] at h
    cases hcr : compileVFSRule r with
    | error e => rw [hcr] at h; simp at h
    | ok c =>
      rw [hcr] at h
      cases hrest : compileVFSRules rest with
      | error e => rw [hrest] at h; simp at h
      | ok cs2 =>
        rw [hrest] at h
        simp only [Except.ok.injEq] at h
        subst h
        have hw := compileVFSRule_ok_wire r c hcr
        have hrec := ih cs2 hrest
        by_cases hnc : ruleHasNoCallback r = true
        · rw [if_pos hnc] at hw
          cases c with
          | wire r2 =>
            simp only [wireOf, Option.some.injEq] at hw
            subst hw
            simp [splitCompiled, List.filter_cons, hnc, hrec]
          | localAfter h2 => simp [wireOf] at hw
          | localMutate h2 => simp [wireOf] at hw
          | localAction h2 => simp [wireOf] at hw
        · rw [if_neg hnc] at hw
          cases c with
          | wire r2 => simp [wireOf] at hw
          | localAfter h2 => simp [splitCompiled, List.filter_cons, hnc, hrec]
          | localMutate h2 => simp [splitCompiled, List.filter_cons, hnc, hrec]
          | localAction h2 => simp [splitCompiled, List.filter_cons, hnc, hrec]

/-- C8 (amended): on success, every rule carrying a callback is elided from
the wire rule list and declarative rules appear verbatim in order; the wire
`emit_events` flag equals the input config flag OR-ed with the presence of at
least one compiled safe/dangerous after-hook (so mutate and action hooks
alone never enable it, but a caller-set `emit_events` survives without any
after-hook); when no wire config is produced there were no declarative rules,
no after-hooks, and the input flag was false. -/
theorem compileVFSHooks_wire_shape (cfg : VFSInterceptionConfig)
    (out : Option VFSInterceptionConfig) (loc : List LocalVFSHook)
    (m : List LocalVFSMutateHook) (a : List LocalVFSActionHook)
    (hok : compileVFSHooks (some cfg) = .ok (out, loc, m, a)) :
    (∀ wcfg, out = some wcfg →
       wcfg.rules = cfg.rules.filter ruleHasNoCallback ∧
       wcfg.emit_events = (cfg.emit_events || !loc.isEmpty)) ∧
    (out = none → cfg.rules.filter ruleHasNoCallback = [] ∧
       cfg.emit_events = false ∧ loc = []) := by
  simp only [compileVFSHooks] at hok
  cases hcs : compileVFSRules cfg.rules with
  | error e => rw [hcs] at hok; simp at hok
  | ok cs =>
    rw [hcs] at hok
    simp only [Except.ok.injEq, Prod.mk.injEq] at hok
    obtain ⟨hout, hloc, _, _⟩ := hok
    have hw := compileVFSRules_wire cfg.rules cs hcs
    subst hloc
    by_cases hcond : ((splitCompiled cs).1.isEmpty &&
        !(cfg.emit_events || !(splitCompiled cs).2.1.isEmpty)) = true
    · rw [if_pos hcond] at hout
      subst hout
      constructor
      · intro wcfg hw2
        cases hw2
      · intro _
        simp only [Bool.and_eq_true, Bool.not_eq_true', Bool.or_eq_false_iff,
          Bool.not_eq_false', List.isEmpty_iff] at hcond
        exact ⟨hw ▸ hcond.1, hcond.2.1, hcond.2.2⟩
    · rw [if_neg hcond] at hout
      subst hout
      constructor
      · intro wcfg hw2
        cases hw2
        exact ⟨hw, rfl⟩
      · intro hne
        cases hne

/-- C8 witness: compiling one declarative rule plus one mutate-hook rule
produces a wire config with only the declarative rule and `emit_events`
still false. -/
theorem compileVFSHooks_wire_shape_witness :
    (VFSInterceptionConfig.mk false [wDeclRule]).rules =
      ({ emit_events := false, rules := [wDeclRule, wMutRule] } :
        VFSInterceptionConfig).rules.filter ruleHasNoCallback ∧
    (VFSInterceptionConfig.mk false [wDeclRule]).emit_events =
      (false || !([] : List LocalVFSHook).isEmpty) :=
  (compileVFSHooks_wire_shape { emit_events := false, rules := [wDeclRule, wMutRule] }
      (some (VFSInterceptionConfig.mk false [wDeclRule])) []
      [{ name := "m", ops := [], path := "",
         hook := fun _ => MutateReturn.nothing }] [] rfl).1
    (VFSInterceptionConfig.mk false [wDeclRule]) rfl

/-- C8 counterexample: with a caller-set `emit_events = true` and no rules at
all, the wire config still carries `emit_events = true` although no safe or
dangerous after-hook was compiled, refuting the claimed "exactly when". -/
theorem compileVFSHooks_emit_events_not_iff :
    ¬ (∀ (out : Option VFSInterceptionConfig) (loc : List LocalVFSHook)
         (m : List LocalVFSMutateHook) (a : List LocalVFSActionHook),
        compileVFSHooks (some { emit_events := true, rules := [] }) = .ok (out, loc, m, a) →
        ∀ wcfg, out = some wcfg → (wcfg.emit_events = true ↔ loc ≠ [])) := by
  intro hcl
  have := hcl (some { emit_events := true, rules := [] }) [] [] [] rfl
    { emit_events := true, rules := [] } rfl
  simp at this

/-! ## Network hook compilation and callback-server lemmas -/

/-- Characterisation of a successful `_compile_network_hooks` loop run: wire
rules are the `to_dict` forms in order (with `callback_id` added exactly on
callback-bearing rules, derived from the rule's position in the full list),
and the registry holds, in order, one entry per callback-bearing rule. -/
theorem compileNetworkRules_ok_shape :
    ∀ (rules : List NetworkHookRule) (i : Nat) (ws : List WireNetworkRule)
      (reg : List (String × LocalNetworkHook)),
      compileNetworkRules i rules = .ok (ws, reg) →
      ws = (List.enumFrom i rules).map (fun p =>
        match p.2.hook with
        | none => networkRuleToWire p.2
        | some _ => { networkRuleToWire p.2 with callback_id := some (mkNetworkCallbackId p.1) }) ∧
      reg = (List.enumFrom i rules).filterMap (fun p =>
        p.2.hook.map (fun hk =>
          (mkNetworkCallbackId p.1,
           ({ name := p.2.name, phase := pyLower (pyStrip p.2.phase),
              timeout_ms := if p.2.timeout_ms > 0 then p.2.timeout_ms else 0,
              hook := hk } : LocalNetworkHook)))) := by
  intro rules
  induction rules with
  | nil =>
    intro i ws reg h
    simp only [compileNetworkRules, Except.ok.injEq, Prod.mk.injEq] at h
    obtain ⟨h1, h2⟩ := h
    simp [List.enumFrom, h1.symm, h2.symm]
  | cons r rest ih =>
    intro i ws reg h
    simp only [compileNetworkRules] at h
    split at h
    · rename_i hhk
      split at h
      · simp at h
      · rename_i ws2 reg2 hrec
        simp only [Except.ok.injEq, Prod.mk.injEq] at h
        obtain ⟨hw, hr⟩ := h
        obtain ⟨ihw, ihr⟩ := ih (i + 1) ws2 reg2 hrec
        subst hw
        subst hr
        simp [List.enumFrom, hhk, ihw, ihr]
    · rename_i hk hhk
      split at h
      · simp at h
      · split at h
        · simp at h
        · rename_i ws2 reg2 hrec
          simp only [Except.ok.injEq, Prod.mk.injEq] at h
          obtain ⟨hw, hr⟩ := h
          obtain ⟨ihw, ihr⟩ := ih (i + 1) ws2 reg2 hrec
          subst hw
          subst hr
          simp [List.enumFrom, hhk, ihw, ihr]

/-- C4 (amended): on success, each rule that carries a callback gets callback
id `network_hook_(i+1)` where `i` is the rule's zero-based index in the FULL
rule list (callback-less rules advance the numbering too); the callable is
stored in the registry under that id, and the id is included in the rule's
wire representation; rules without callbacks get no `callback_id`. -/
theorem compileNetworkHooks_callback_ids (cfg : NetworkInterceptionConfig)
    (out : Option WireNetworkConfig) (reg : List (String × LocalNetworkHook))
    (hok : compileNetworkHooks (some cfg) = .ok (out, reg)) :
    reg = cfg.rules.enum.filterMap (fun p =>
      p.2.hook.map (fun hk =>
        (mkNetworkCallbackId p.1,
         ({ name := p.2.name, phase := pyLower (pyStrip p.2.phase),
            timeout_ms := if p.2.timeout_ms > 0 then p.2.timeout_ms else 0,
            hook := hk } : LocalNetworkHook)))) ∧
    (∀ wcfg, out = some wcfg →
       wcfg.rules = cfg.rules.enum.map (fun p =>
         match p.2.hook with
         | none => networkRuleToWire p.2
         | some _ => { networkRuleToWire p.2 with callback_id := some (mkNetworkCallbackId p.1) })) ∧
    (out = none → cfg.rules = []) := by
  simp only [compileNetworkHooks] at hok
  split at hok
  · simp at hok
  · rename_i ws2 reg2 hrec
    obtain ⟨ihw, ihr⟩ := compileNetworkRules_ok_shape cfg.rules 0 ws2 reg2 hrec
    by_cases hE : ws2.isEmpty = true
    · rw [if_pos hE] at hok
      simp only [Except.ok.injEq, Prod.mk.injEq] at hok
      obtain ⟨ho, hr⟩ := hok
      subst ho
      subst hr
      refine ⟨?_, ?_, ?_⟩
      · rw [ihr]; rfl
      · intro wcfg hw
        exact Option.noConfusion hw
      · intro _
        rw [List.isEmpty_iff] at hE
        rw [hE] at ihw
        cases hrules : cfg.rules with
        | nil => rfl
        | cons a b =>
          rw [hrules] at ihw
          simp [List.enumFrom] at ihw
    · rw [if_neg hE] at hok
      simp only [Except.ok.injEq, Prod.mk.injEq] at hok
      obtain ⟨ho, hr⟩ := hok
      subst ho
      subst hr
      refine ⟨?_, ?_, ?_⟩
      · rw [ihr]; rfl
      · intro wcfg hw
        cases hw
        rw [ihw]
        rfl
      · intro hn
        exact Option.noConfusion hn

/-- C4 witness: a single callback-bearing rule yields registry key
`network_hook_1` with the rule's callable stored under it. -/
theorem compileNetworkHooks_callback_ids_witness :
    [("network_hook_1",
      ({ name := "n1", phase := "", timeout_ms := 0, hook := wNetHookFun } : LocalNetworkHook))]
    = ({ rules := [wNetRule] } : NetworkInterceptionConfig).rules.enum.filterMap (fun p =>
        p.2.hook.map (fun hk =>
          (mkNetworkCallbackId p.1,
           ({ name := p.2.name, phase := pyLower (pyStrip p.2.phase),
              timeout_ms := if p.2.timeout_ms > 0 then p.2.timeout_ms else 0,
              hook := hk } : LocalNetworkHook)))) :=
  (compileNetworkHooks_callback_ids { rules := [wNetRule] }
    (some { rules := [{ networkRuleToWire wNetRule with callback_id := some "network_hook_1" }],
            callback_socket := none })
    [("network_hook_1",
      { name := "n1", phase := "", timeout_ms := 0, hook := wNetHookFun })] rfl).1

/-- C4 counterexample: with a callback-less first rule and a callback-bearing
second rule, the (first and only) callback-bearing rule is assigned
`network_hook_2`, not `network_hook_1`: the numbering follows the rule's
position among ALL rules, not among callback-bearing ones. -/
theorem compileNetworkHooks_callback_id_not_dense :
    cexNetRule0.hook.isNone = true ∧ cexNetRule1.hook.isSome = true ∧
    networkRegistryKeys (compileNetworkHooks
      (some { rules := [cexNetRule0, cexNetRule1] })) = ["network_hook_2"] :=
  ⟨rfl, rfl, rfl⟩

/-- C9: a request whose (stripped) callback id is not in the registry, or
whose phase does not match the registered hook's non-empty expected phase,
gets a reply carrying an `error` field and the user hook is never invoked. -/
theorem serveNetworkHookConn_error_no_invoke (reg : List (String × LocalNetworkHook))
    (p : NetworkHookWirePayload)
    (h : reg.lookup (pyStrip p.callback_id) = none ∨
         ∃ hk, reg.lookup (pyStrip p.callback_id) = some hk ∧
           hk.phase ≠ "" ∧ hk.phase ≠ parseNetworkPhase p.phase) :
    (lookupObj (serveNetworkHookConn reg p).1 "error").isSome = true ∧
    (serveNetworkHookConn reg p).2 = false := by
  unfold serveNetworkHookConn
  rcases h with h | ⟨hk, hfind, hph1, hph2⟩
  · rw [h]
    exact ⟨rfl, rfl⟩
  · split
    · rename_i heq
      rw [hfind] at heq
      cases heq
    · rename_i hk2 heq
      rw [hfind] at heq
      injection heq with heq2
      subst heq2
      rw [if_pos ⟨hph1, hph2⟩]
      exact ⟨rfl, rfl⟩

/-- C9 witness: a registered before-hook receiving an after-phase request
replies with an error and the hook is not invoked. -/
theorem serveNetworkHookConn_error_no_invoke_witness :
    (lookupObj (serveNetworkHookConn wNetReg wNetPayload).1 "error").isSome = true ∧
    (serveNetworkHookConn wNetReg wNetPayload).2 = false :=
  serveNetworkHookConn_error_no_invoke wNetReg wNetPayload
    (Or.inr ⟨{ name := "x", phase := "before", timeout_ms := 0, hook := wNetHookFun },
      rfl, by decide, by decide⟩)

/-! ## RPC timeout and close/remove lemmas -/

/-- C5: a request sent with a timeout that is not completed in time makes the
client write exactly the request frame followed by one `cancel` frame whose
params carry the timed-out request's id, remove that request's pending entry
before returning (the pending table is restored), and raise a timeout
error. -/
theorem sendRequest_timeout_cancels (st : RpcState) (method : String)
    (params : Option JsonValue) (t : ℚ)
    (hfresh : st.request_id + 1 ∉ st.pending) :
    (sendRequest st true method params (some t) .timedOut).2.1 =
      [{ method := method, params := params, id := st.request_id + 1 },
       { method := "cancel",
         params := some (.obj [("id", .num ((st.request_id + 1 : Nat) : ℚ))]),
         id := st.request_id + 2 }] ∧
    (method ≠ "cancel" →
      ((sendRequest st true method params (some t) .timedOut).2.1.filter
        (fun f => f.method == "cancel")).length = 1) ∧
    (sendRequest st true method params (some t) .timedOut).1.pending = st.pending ∧
    (st.request_id + 1) ∉ (sendRequest st true method params (some t) .timedOut).1.pending ∧
    (sendRequest st true method params (some t) .timedOut).2.2 =
      .error (.timeoutErr (timeoutMsg method (st.request_id + 1) t)) := by
  have hpend : (st.pending ++ [st.request_id + 1]).filter
      (fun x => x != st.request_id + 1) = st.pending := by
    rw [List.filter_append]
    have h1 : st.pending.filter (fun x => x != st.request_id + 1) = st.pending := by
      apply List.filter_eq_self.mpr
      intro a ha
      simp only [bne_iff_ne, ne_eq, decide_eq_true_eq]
      intro heq
      exact hfresh (heq ▸ ha)
    have h2 : ([st.request_id + 1] : List Nat).filter
        (fun x => x != st.request_id + 1) = [] := by simp
    rw [h1, h2, List.append_nil]
  refine ⟨rfl, ?_, ?_, ?_, rfl⟩
  · intro hm
    show (List.filter _ [_, _]).length = 1
    simp only [List.filter]
    have hm2 : (method == "cancel") = false := by
      simp only [beq_eq_false_iff_ne, ne_eq]
      exact hm
    simp [hm2]
  · exact hpend
  · show st.request_id + 1 ∉ (st.pending ++ [st.request_id + 1]).filter
      (fun x => x != st.request_id + 1)
    rw [hpend]
    exact hfresh

/-- C5 witness: the timeout path evaluated on a fresh client state. -/
theorem sendRequest_timeout_cancels_witness :
    (sendRequest ⟨0, []⟩ true "exec" none (some 1) .timedOut).2.1 =
      [{ method := "exec", params := none, id := 1 },
       { method := "cancel", params := some (.obj [("id", .num ((1 : Nat) : ℚ))]), id := 2 }] ∧
    ("exec" ≠ "cancel" →
      ((sendRequest ⟨0, []⟩ true "exec" none (some 1) .timedOut).2.1.filter
        (fun f => f.method == "cancel")).length = 1) ∧
    (sendRequest ⟨0, []⟩ true "exec" none (some 1) .timedOut).1.pending = [] ∧
    (1 : Nat) ∉ (sendRequest ⟨0, []⟩ true "exec" none (some 1) .timedOut).1.pending ∧
    (sendRequest ⟨0, []⟩ true "exec" none (some 1) .timedOut).2.2 =
      .error (.timeoutErr (timeoutMsg "exec" 1 1)) :=
  sendRequest_timeout_cancels ⟨0, []⟩ "exec" none 1 (List.not_mem_nil 1)

/-- C3 (amended): `close` returns normally in every state and environment
(including a dead subprocess and a failing close RPC); `remove` returns
normally whenever the `matchlock rm` CLI invocation exits zero (and trivially
when no VM id is recorded), but it is not exception-free in general — see the
counterexample for the non-zero-exit case the claim asserted. -/
theorem close_never_raises_and_remove_ok_on_cli_success
    (st : CloseState) (env : CloseEnv) (t : ℚ)
    (st2 : CloseState) (env2 : RemoveEnv) (hcli : env2.rmRun = .ok 0) :
    (close st env t).2 = .ok () ∧ remove st2 env2 = .ok () := by
  constructor
  · unfold close
    split_ifs <;> rfl
  · unfold remove
    split
    · rfl
    · rw [hcli]
      rfl

/-- C3 witness: a client with a live process whose close RPC fails and whose
waits fail still closes without raising; a successful CLI removal returns
normally. -/
theorem close_never_raises_and_remove_ok_witness :
    (close { closed := false, vm_id := some "vm-1", last_vm_id := none, processSome := true }
       { pollExited := false, closeRpcOutcome := .completedErr 1 "boom",
         stdinCloseOk := false, waitOk := false, killOk := false } 0).2 = .ok () ∧
    remove { vm_id := some "vm-1" } { rmRun := .ok 0 } = .ok () :=
  close_never_raises_and_remove_ok_on_cli_success
    { closed := false, vm_id := some "vm-1", last_vm_id := none, processSome := true }
    { pollExited := false, closeRpcOutcome := .completedErr 1 "boom",
      stdinCloseOk := false, waitOk := false, killOk := false } 0
    { vm_id := some "vm-1" } { rmRun := .ok 0 } rfl

/-- C3 counterexample: with a recorded VM id and a CLI invocation that exits
non-zero, `remove` raises (`subprocess.run(..., check=True)` propagates
`CalledProcessError`), contradicting the claim that `remove` never raises. -/
theorem remove_raises_on_nonzero_cli :
    pyStrOr (some "vm-1") none ≠ "" ∧
    exceptOk (remove { vm_id := some "vm-1" } { rmRun := .ok 1 }) = false :=
  ⟨by decide, rfl⟩

/-! ## create validation and block_private_ips lemmas -/

/-- Looking up `block_private_ips` in the full-form network dict skips the
`allowed_hosts` key and returns the stored flag. -/
theorem lookup_block_private_ips (hosts : List JsonValue) (b : Bool)
    (rest : List (String × JsonValue)) :
    lookupObj (.obj (("allowed_hosts", JsonValue.arr hosts) ::
      ("block_private_ips", JsonValue.bool b) :: rest)) "block_private_ips" =
      some (.bool b) := rfl

/-- C7: whenever `_build_create_network_params` produces a network object
that is not the `no_network` form, the wire `block_private_ips` equals the
caller's value when explicitly set and `true` otherwise; in particular a
caller who never touches it always gets `true`. -/
theorem buildCreateNetworkParams_block_private_ips (opts : CreateOptions)
    (wire : Option WireNetworkConfig) (j : JsonValue)
    (hnn : opts.no_network = false)
    (hj : buildCreateNetworkParams opts wire = some j) :
    lookupObj j "block_private_ips" =
      some (.bool (!opts.block_private_ips_set || opts.block_private_ips)) ∧
    (opts.block_private_ips_set = false →
      lookupObj j "block_private_ips" = some (.bool true)) := by
  simp only [buildCreateNetworkParams] at hj
  by_cases hinc : (!(!opts.allowed_hosts.isEmpty || !opts.secrets.isEmpty ||
      !opts.dns_servers.isEmpty || opts.hostname != "" || decide (0 < opts.network_mtu) ||
      opts.no_network || (resolveCreateBlockPrivateIps opts).2 ||
      opts.force_interception || wire.isSome)) = true
  · rw [if_pos hinc] at hj
    cases hj
  · rw [if_neg hinc, hnn] at hj
    rw [if_neg (by simp : ¬ ((false : Bool) = true))] at hj
    injection hj with hj2
    subst hj2
    simp only [List.append_assoc, List.cons_append, List.nil_append]
    rw [lookup_block_private_ips]
    have hval : (if (resolveCreateBlockPrivateIps opts).2 = true then
        (resolveCreateBlockPrivateIps opts).1 else true) =
        (!opts.block_private_ips_set || opts.block_private_ips) := by
      unfold resolveCreateBlockPrivateIps
      by_cases hset : opts.block_private_ips_set = true
      · simp [hset]
      · simp only [Bool.not_eq_true] at hset
        by_cases hv : opts.block_private_ips = true
        · simp [hset, hv]
        · simp only [Bool.not_eq_true] at hv
          simp [hset, hv]
    rw [hval]
    exact ⟨rfl, fun hset => by simp [hset]⟩

/-- C7 witness: a caller that sets `allowed_hosts` but never touches
`block_private_ips` gets `block_private_ips = true` on the wire. -/
theorem buildCreateNetworkParams_block_private_ips_witness :
    lookupObj (.obj [("allowed_hosts", JsonValue.arr [.str "h"]),
                     ("block_private_ips", JsonValue.bool true)]) "block_private_ips" =
      some (.bool (!false || false)) ∧
    (false = false →
      lookupObj (.obj [("allowed_hosts", JsonValue.arr [.str "h"]),
                       ("block_private_ips", JsonValue.bool true)]) "block_private_ips" =
        some (.bool true)) :=
  buildCreateNetworkParams_block_private_ips { allowed_hosts := ["h"] } none
    (.obj [("allowed_hosts", JsonValue.arr [.str "h"]),
           ("block_private_ips", JsonValue.bool true)]) rfl rfl

/-- C6: `create` raises a `MatchlockError` with an empty effect trace (so
before any RPC is sent and before any hook server is touched) when the
options violate an invariant: empty image, negative MTU, or `no_network`
combined with allowed hosts, secrets, forced interception or a network
interception config; and with `no_network` combined with only
`dns_servers`/`hostname` (the other conflicting fields unset), validation
passes and the `create` RPC frame is emitted. -/
theorem create_validates_before_rpc (opts : CreateOptions) (env : CreateEnv) :
    ((opts.image = "" ∨ opts.network_mtu < 0 ∨
      (opts.no_network ∧ (¬ opts.allowed_hosts.isEmpty ∨ ¬ opts.secrets.isEmpty ∨
        opts.force_interception ∨ opts.network_interception.isSome))) →
      ∃ msg, create opts env = ([], .error (.matchlock msg))) ∧
    ((opts.image ≠ "" ∧ 0 ≤ opts.network_mtu ∧ opts.no_network = true ∧
      opts.allowed_hosts.isEmpty = true ∧ opts.secrets.isEmpty = true ∧
      opts.force_interception = false ∧ opts.network_interception = none ∧
      opts.vfs_interception = none ∧ env.processRunning = true) →
      ∃ p, CreateEffect.rpc "create" p ∈ (create opts env).1) := by
  constructor
  · intro hviol
    unfold create
    by_cases h1 : opts.image = ""
    · rw [if_pos h1]; exact ⟨_, rfl⟩
    · rw [if_neg h1]
      by_cases h2 : opts.network_mtu < 0
      · rw [if_pos h2]; exact ⟨_, rfl⟩
      · rw [if_neg h2]
        have h3 : opts.no_network ∧ (¬ opts.allowed_hosts.isEmpty ∨ ¬ opts.secrets.isEmpty ∨
            opts.force_interception ∨ opts.network_interception.isSome) := by
          rcases hviol with hv | hv | hv
          · exact absurd hv h1
          · exact absurd hv h2
          · exact hv
        rw [if_pos h3]
        exact ⟨_, rfl⟩
  · rintro ⟨h1, h2, h3, h4, h5, h6, h7, h8, h9⟩
    unfold create
    rw [if_neg h1, if_neg (by omega : ¬ opts.network_mtu < 0)]
    have hcomb : ¬ (opts.no_network ∧ (¬ opts.allowed_hosts.isEmpty ∨
        ¬ opts.secrets.isEmpty ∨ opts.force_interception ∨
        opts.network_interception.isSome)) := by
      rintro ⟨-, hc⟩
      rcases hc with hc | hc | hc | hc
      · exact hc h4
      · exact hc h5
      · rw [h6] at hc; cases hc
      · rw [h7] at hc; cases hc
    rw [if_neg hcomb, h8, h7]
    simp only [compileVFSHooks, compileNetworkHooks, h9, List.isEmpty_nil, Bool.not_true]
    cases env.createOutcome with
    | completedOk v =>
      cases hl : lookupObj v "id" with
      | some idv =>
        exact ⟨buildCreateParams opts none (buildCreateNetworkParams opts none), by simp [hl]⟩
      | none =>
        exact ⟨buildCreateParams opts none (buildCreateNetworkParams opts none), by simp [hl]⟩
    | completedErr c m =>
      exact ⟨buildCreateParams opts none (buildCreateNetworkParams opts none), by simp⟩
    | timedOut =>
      exact ⟨buildCreateParams opts none (buildCreateNetworkParams opts none), by simp⟩

/-- C6 witness: an empty image is rejected with no effects, and `no_network`
combined with only `dns_servers` and `hostname` passes validation and reaches
the `create` RPC. -/
theorem create_validates_before_rpc_witness :
    (∃ msg, create ({ image := "" } : CreateOptions) ({} : CreateEnv) =
      ([], .error (.matchlock msg))) ∧
    (∃ p, CreateEffect.rpc "create" p ∈
      (create ({ image := "alpine:latest", no_network := true,
                 dns_servers := ["1.1.1.1"], hostname := "hostx" } : CreateOptions)
        ({} : CreateEnv)).1) :=
  ⟨(create_validates_before_rpc ({ image := "" } : CreateOptions) ({} : CreateEnv)).1
      (Or.inl rfl),
   (create_validates_before_rpc
      ({ image := "alpine:latest", no_network := true,
         dns_servers := ["1.1.1.1"], hostname := "hostx" } : CreateOptions)
      ({} : CreateEnv)).2
     ⟨by decide, by decide, rfl, rfl, rfl, rfl, rfl, rfl, rfl⟩⟩
